import Mathlib

/-!
# Verification of the multi-agent scene simulator core

A shallow embedding, in Lean 4, of the Python services under
`src/multi_agent_scene_simulator/services/` (scene_parser.py,
environment_probe.py, failure_analyzer.py, context_manager.py,
executor.py), together with theorems settling the specification
claims about them.

Python floats are modelled as rationals (all constants appearing in the
verified code paths are exactly representable), Python strings as Lean
strings, Python dicts as insertion-ordered association lists, and
Python exceptions as explicit `Except` / error-state values.
-/

/-! ## Models of Python string primitives -/

/-- Model of a generic JSON-like Python value (used for `dict`-typed
payloads that the code stores but never inspects). -/
inductive Jval where
  | null
  | bool (b : Bool)
  | num (q : ℚ)
  | str (s : String)
  | arr (xs : List Jval)
  | obj (kvs : List (String × Jval))

/-- `isSubListOf n h`: `n` is a leading segment of `h`. -/
def isSubListOf : List Char → List Char → Bool
  | [], _ => true
  | _ :: _, [] => false
  | a :: as, b :: bs => a == b && isSubListOf as bs

/-- `listContains hay needle`: `needle` occurs as a contiguous segment of
`hay` (model of Python `needle in hay` on strings). -/
def listContains : List Char → List Char → Bool
  | hay, needle =>
    isSubListOf needle hay ||
      match hay with
      | [] => false
      | _ :: t => listContains t needle

/-- Python `needle in hay` for strings. -/
def pyIn (needle hay : String) : Bool :=
  listContains hay.toList needle.toList

/-- Python `s.lower()` (ASCII model). -/
def pyLower (s : String) : String :=
  String.mk (s.toList.map Char.toLower)

/-- Python `s.startswith(p)`. -/
def pyStartsWith (s p : String) : Bool :=
  isSubListOf p.toList s.toList

/-- Python `s.strip(chars)`: remove any of `cs` from both ends. -/
def pyStripChars (cs : List Char) (s : String) : String :=
  String.mk (((s.toList.dropWhile (fun c => cs.contains c)).reverse.dropWhile
    (fun c => cs.contains c)).reverse)

/-- Python `s.strip()` (whitespace). -/
def pyStrip (s : String) : String :=
  String.mk (((s.toList.dropWhile Char.isWhitespace).reverse.dropWhile
    Char.isWhitespace).reverse)

/-- Fuel-driven scan behind `pySplit`; the fuel starts at the input
length, which bounds the number of steps, so the zero-fuel branch is
unreachable. -/
def splitOnListGo (sep : List Char) : ℕ → List Char → List Char → List (List Char)
  | _, [], acc => [acc.reverse]
  | 0, l, acc => [acc.reverse ++ l]
  | fuel + 1, c :: rest, acc =>
    if isSubListOf sep (c :: rest) then
      acc.reverse :: splitOnListGo sep fuel ((c :: rest).drop sep.length) []
    else splitOnListGo sep fuel rest (c :: acc)

/-- Python `s.split(sep)` for a non-empty separator: left-to-right,
non-overlapping. -/
def pySplit (s sep : String) : List String :=
  (splitOnListGo sep.toList s.toList.length s.toList []).map String.mk

/-- Python `s.split(sep)[-1]` (the split list is never empty). -/
def pySplitLast (s sep : String) : String :=
  (pySplit s sep).getLastD ""

/-- Decimal digits to a natural number. -/
def digitsToNat (ds : List Char) : ℕ :=
  ds.foldl (fun a c => a * 10 + (c.toNat - 48)) 0

/-- Model of Python `float(s)` on the decimal forms
`[+|-] digits [. digits] [(e|E) [+|-] digits]` after stripping
whitespace (the special forms `inf` / `nan` / underscores in numerals
do not occur in the verified inputs and are rejected).  Failure
(`ValueError`) is `none`. -/
def pyFloat (s : String) : Option ℚ :=
  let t0 := (pyStrip s).toList
  let sgn : ℚ × List Char :=
    match t0 with
    | '+' :: r => (1, r)
    | '-' :: r => (-1, r)
    | r => (1, r)
  let t := sgn.2
  let intPart := t.takeWhile Char.isDigit
  let rest1 := t.dropWhile Char.isDigit
  let fracp : List Char × List Char :=
    match rest1 with
    | '.' :: r => (r.takeWhile Char.isDigit, r.dropWhile Char.isDigit)
    | r => ([], r)
  let fracPart := fracp.1
  let rest2 := fracp.2
  if intPart.isEmpty && fracPart.isEmpty then none
  else
    let mantissa : ℚ :=
      (digitsToNat intPart : ℚ) + (digitsToNat fracPart : ℚ) / (10 : ℚ) ^ fracPart.length
    match rest2 with
    | [] => some (sgn.1 * mantissa)
    | 'e' :: r =>
      let esgn : ℤ × List Char :=
        match r with
        | '+' :: rr => (1, rr)
        | '-' :: rr => (-1, rr)
        | rr => (1, rr)
      let eds := esgn.2.takeWhile Char.isDigit
      let tail := esgn.2.dropWhile Char.isDigit
      if eds.isEmpty || !tail.isEmpty then none
      else some (sgn.1 * mantissa * (10 : ℚ) ^ (esgn.1 * (digitsToNat eds : ℤ)))
    | 'E' :: r =>
      let esgn : ℤ × List Char :=
        match r with
        | '+' :: rr => (1, rr)
        | '-' :: rr => (-1, rr)
        | rr => (1, rr)
      let eds := esgn.2.takeWhile Char.isDigit
      let tail := esgn.2.dropWhile Char.isDigit
      if eds.isEmpty || !tail.isEmpty then none
      else some (sgn.1 * mantissa * (10 : ℚ) ^ (esgn.1 * (digitsToNat eds : ℤ)))
    | _ => none

/-- Model of Python `int(s)` on stripped decimal numerals. -/
def pyInt (s : String) : Option ℤ :=
  let t0 := (pyStrip s).toList
  let sgn : ℤ × List Char :=
    match t0 with
    | '+' :: r => (1, r)
    | '-' :: r => (-1, r)
    | r => (1, r)
  if sgn.2.isEmpty || !sgn.2.all Char.isDigit then none
  else some (sgn.1 * (digitsToNat sgn.2 : ℤ))

/-! ### Substring lemmas -/

theorem isSubListOf_map (f : Char → Char) :
    ∀ (n h : List Char), isSubListOf n h = true →
      isSubListOf (n.map f) (h.map f) = true := by
  intro n
  induction n with
  | nil => intro h _; simp [isSubListOf]
  | cons a as ih =>
    intro h hh
    cases h with
    | nil => simp [isSubListOf] at hh
    | cons b bs =>
      simp only [isSubListOf, Bool.and_eq_true, beq_iff_eq] at hh
      simp only [List.map, isSubListOf, Bool.and_eq_true, beq_iff_eq]
      exact ⟨by rw [hh.1], ih bs hh.2⟩

theorem listContains_map (f : Char → Char) :
    ∀ (hay needle : List Char), listContains hay needle = true →
      listContains (hay.map f) (needle.map f) = true := by
  intro hay
  induction hay with
  | nil =>
    intro needle hh
    simp only [listContains, Bool.or_eq_true] at hh ⊢
    rcases hh with hh | hh
    · exact Or.inl (isSubListOf_map f _ _ hh)
    · simp at hh
  | cons b bs ih =>
    intro needle hh
    simp only [listContains, Bool.or_eq_true] at hh ⊢
    rcases hh with hh | hh
    · exact Or.inl (isSubListOf_map f _ _ hh)
    · exact Or.inr (ih _ hh)

/-- Containment of an all-lowercase needle survives Python `.lower()`,
provided the needle is fixed by lowercasing. -/
theorem pyIn_pyLower_of_pyIn (needle hay : String)
    (hfix : needle.toList.map Char.toLower = needle.toList)
    (h : pyIn needle hay = true) : pyIn needle (pyLower hay) = true := by
  unfold pyIn at h ⊢
  unfold pyLower
  show listContains (String.toList (String.mk (hay.toList.map Char.toLower))) needle.toList = true
  have : String.toList (String.mk (hay.toList.map Char.toLower)) = hay.toList.map Char.toLower := rfl
  rw [this, ← hfix]
  exact listContains_map Char.toLower _ _ h

/-! ## Failure analyzer (`services/failure_analyzer.py`) -/

/-- `TaskContext` dataclass (failure_analyzer.py). -/
structure TaskContext where
  task_name : String
  instruction : String
  generated_code : String
  error_message : String
  error_type : String
  stack_trace : String
  scene_state_before : Jval
  scene_state_after : Jval
  attempt_number : ℤ
  previous_failures : List String

/-- `FailureAnalyzer._build_failure_patterns`, in the dict's insertion
order (Python dict iteration order). -/
def failurePatterns : List (String × List String) :=
  [("context_error",
    ["context is incorrect", "poll() failed", "context error", "invalid context",
     "not in object mode"]),
   ("geometry_error",
    ["mesh operation failed", "vertex group", "face index", "edge loop",
     "geometry error"]),
   ("material_error",
    ["material not found", "texture missing", "shader error", "material slot"]),
   ("object_error",
    ["object not found", "object does not exist", "no active object",
     "object selection"]),
   ("constraint_error",
    ["constraint failed", "parenting error", "transform constraint"]),
   ("render_error",
    ["render engine", "cycles error", "eevee error", "render settings"]),
   ("memory_error",
    ["memory", "out of memory", "allocation failed"]),
   ("syntax_error",
    ["syntax error", "indentation error", "name error", "attribute error"]),
   ("runtime_error",
    ["runtime error", "value error", "type error", "index error"])]

/-- `FailureAnalyzer._identify_failure_type`. -/
def identifyFailureType (tc : TaskContext) : String :=
  let errorMsg := pyLower tc.error_message
  match failurePatterns.find? (fun p => p.2.any (fun pat => pyIn (pyLower pat) errorMsg)) with
  | some p => p.1
  | none =>
    if pyIn "bpy.ops" tc.generated_code && pyIn "poll" errorMsg then "context_error"
    else if pyIn "mesh" tc.generated_code &&
        (pyIn "index" errorMsg || pyIn "vertex" errorMsg) then "geometry_error"
    else if pyIn "material" tc.generated_code then "material_error"
    else if pyIn "object" tc.generated_code && pyIn "not found" errorMsg then "object_error"
    else "unknown_error"

/-- `FailureAnalyzer._determine_root_cause` (matches on the raw, not
lowercased, error message — as in the source). -/
def determineRootCause (tc : TaskContext) (failureType : String) : String :=
  let errorMsg := tc.error_message
  if failureType == "context_error" then
    if pyIn "object.mode" errorMsg then "incorrect_object_mode"
    else if pyIn "poll" errorMsg then "invalid_context_for_operation"
    else "context_validation_failure"
  else if failureType == "geometry_error" then
    if pyIn "index" errorMsg then "invalid_geometry_index"
    else if pyIn "vertex" errorMsg && pyIn "group" errorMsg then "missing_vertex_group"
    else "geometry_validation_failure"
  else if failureType == "material_error" then
    if pyIn "not found" errorMsg then "missing_material"
    else "material_assignment_failure"
  else if failureType == "object_error" then
    if pyIn "not found" errorMsg then "object_does_not_exist"
    else "object_access_failure"
  else "unknown_root_cause"

/-- The `base_complexity` table of
`FailureAnalyzer._calculate_recovery_complexity` — its keys are failure
*types*, although the function is called with a root cause. -/
def baseComplexity : List (String × ℤ) :=
  [("context_error", 2), ("geometry_error", 4), ("material_error", 2),
   ("object_error", 3), ("constraint_error", 3), ("render_error", 4),
   ("memory_error", 5), ("syntax_error", 1), ("runtime_error", 2),
   ("unknown_error", 3)]

/-- `FailureAnalyzer._calculate_recovery_complexity`. -/
def calculateRecoveryComplexity (tc : TaskContext) (rootCause : String) : ℤ :=
  let complexity := ((baseComplexity.find? (fun p => p.1 == rootCause)).map Prod.snd).getD 3
  let complexity := complexity + min (tc.attempt_number - 1) 2
  min complexity 5

/-- The classification/recovery-metric fields of
`FailureAnalyzer.analyze_task_failure` (the free-text report fields —
specific issue, suggested fix, prevention strategy — are not modelled;
no claim depends on them, and `recovery_complexity` depends only on the
root cause and attempt number). -/
structure FailureAnalysis where
  failure_type : String
  root_cause : String
  recovery_complexity : ℤ

/-- `FailureAnalyzer.analyze_task_failure` (projected to the modelled
fields, computed in source order). -/
def analyzeTaskFailure (tc : TaskContext) : FailureAnalysis :=
  let failureType := identifyFailureType tc
  let rootCause := determineRootCause tc failureType
  { failure_type := failureType
    root_cause := rootCause
    recovery_complexity := calculateRecoveryComplexity tc rootCause }

/-- Python `dict.get(k, 0) + 1` counting over an insertion-ordered dict. -/
def bumpCount (m : List (String × ℕ)) (k : String) : List (String × ℕ) :=
  if m.any (fun p => p.1 == k) then
    m.map (fun p => if p.1 == k then (p.1, p.2 + 1) else p)
  else m ++ [(k, 1)]

/-- Python `max(m.items(), key=lambda x: x[1])[0]`: the first key of
maximal count in iteration order. -/
def maxByCount : List (String × ℕ) → Option String
  | [] => none
  | x :: xs => some ((xs.foldl (fun best p => if p.2 > best.2 then p else best) x).1)

/-- `FailureAnalyzer.get_failure_summary`, returning the result dict as
an insertion-ordered association list.  For an empty batch the source
returns early with only the `patterns` and `recommendations` keys. -/
def getFailureSummary (failures : List TaskContext) : List (String × Jval) :=
  if failures.isEmpty then
    [("patterns", Jval.arr []), ("recommendations", Jval.arr [])]
  else
    let ft := failures.foldl (fun m f => bumpCount m (analyzeTaskFailure f).failure_type) []
    let rc := failures.foldl (fun m f => bumpCount m (analyzeTaskFailure f).root_cause) []
    [("most_common_type", Jval.str ((maxByCount ft).getD "none")),
     ("most_common_cause", Jval.str ((maxByCount rc).getD "none")),
     ("failure_count", Jval.num (failures.length : ℚ)),
     ("patterns", Jval.arr (ft.map (fun p => Jval.str p.1))),
     ("recommendations",
      Jval.arr [Jval.str "Focus on common failure types",
                Jval.str "Implement preventive measures"])]

/-! ## Claims C3 and C5 -/

/-- The concrete `TaskContext` used to exercise the `"poll() failed"`
classification path. -/
def tcPoll : TaskContext :=
  { task_name := "t", instruction := "", generated_code := "",
    error_message := "poll() failed", error_type := "RuntimeError",
    stack_trace := "", scene_state_before := Jval.null,
    scene_state_after := Jval.null, attempt_number := 1,
    previous_failures := [] }

/-- When the root cause is absent from the `base_complexity` table, the
recovery complexity at attempt 1 is the default 3. -/
theorem complexity_of_unlisted_cause (tc : TaskContext) (rc : String)
    (h : baseComplexity.find? (fun p => p.1 == rc) = none)
    (hatt : tc.attempt_number = 1) :
    calculateRecoveryComplexity tc rc = 3 := by
  unfold calculateRecoveryComplexity
  rw [h, hatt]
  norm_num

/-- C3 (counterexample): on the concrete task context whose error
message is exactly "poll() failed" and whose attempt number is 1, the
failure type is `context_error` but the recovery complexity is not 2 as
the claim states — the `base_complexity` table is keyed by failure
types while the function looks up the root cause
(`invalid_context_for_operation`), so the lookup misses and the default
3 is used. -/
theorem C3_poll_complexity_counterexample :
    identifyFailureType tcPoll = "context_error" ∧
    ¬ ((analyzeTaskFailure tcPoll).recovery_complexity = 2) := by decide

/-- C3 (amended): for every task context whose error message contains
"poll() failed", the failure type is `context_error`, and for attempt
number 1 the recovery complexity is exactly 3 (the table lookup on the
root cause always misses, yielding the default base 3, plus
`min(attempt_number - 1, 2) = 0`, capped at 5). -/
theorem C3_poll_context_error_amended (tc : TaskContext)
    (hpoll : pyIn "poll() failed" tc.error_message = true)
    (hatt : tc.attempt_number = 1) :
    identifyFailureType tc = "context_error" ∧
    (analyzeTaskFailure tc).recovery_complexity = 3 := by
  have hfix : ("poll() failed").toList.map Char.toLower = ("poll() failed").toList := by decide
  have hlow : pyIn "poll() failed" (pyLower tc.error_message) = true :=
    pyIn_pyLower_of_pyIn _ _ hfix hpoll
  have hlowpat : pyLower "poll() failed" = "poll() failed" := by decide
  have hpred :
      (fun p : String × List String =>
        p.2.any (fun pat => pyIn (pyLower pat) (pyLower tc.error_message)))
        ("context_error",
          ["context is incorrect", "poll() failed", "context error", "invalid context",
           "not in object mode"]) = true := by
    simp only [List.any_cons, Bool.or_eq_true]
    right; left
    rw [hlowpat]
    exact hlow
  have hfind :
      failurePatterns.find?
        (fun p => p.2.any (fun pat => pyIn (pyLower pat) (pyLower tc.error_message))) =
      some ("context_error",
        ["context is incorrect", "poll() failed", "context error", "invalid context",
         "not in object mode"]) := by
    unfold failurePatterns
    exact List.find?_cons_of_pos _ hpred
  have hident : identifyFailureType tc = "context_error" := by
    unfold identifyFailureType
    simp only [hfind]
  refine ⟨hident, ?_⟩
  unfold analyzeTaskFailure
  simp only [hident]
  unfold determineRootCause
  simp only [beq_self_eq_true, if_true]
  by_cases h1 : pyIn "object.mode" tc.error_message = true
  · simp only [h1, if_true]
    exact complexity_of_unlisted_cause tc _ (by decide) hatt
  · simp only [Bool.not_eq_true] at h1
    simp only [h1, Bool.false_eq_true, if_false]
    by_cases h2 : pyIn "poll" tc.error_message = true
    · simp only [h2, if_true]
      exact complexity_of_unlisted_cause tc _ (by decide) hatt
    · simp only [Bool.not_eq_true] at h2
      simp only [h2, Bool.false_eq_true, if_false]
      exact complexity_of_unlisted_cause tc _ (by decide) hatt

/-- C3 (witness): the amended theorem applied to the concrete
"poll() failed" context at attempt 1. -/
theorem C3_poll_context_error_amended_witness :
    pyIn "poll() failed" tcPoll.error_message = true ∧
    identifyFailureType tcPoll = "context_error" ∧
    (analyzeTaskFailure tcPoll).recovery_complexity = 3 :=
  ⟨by decide, C3_poll_context_error_amended tcPoll (by decide) rfl⟩

/-- C5 (counterexample): on the empty failure batch the summary dict
contains **no** `most_common_type`, `most_common_cause` or
`failure_count` entries at all — the early return produces only the
`patterns` and `recommendations` keys, so the claimed
`most_common_type = "none"` (etc.) is false. -/
theorem C5_empty_summary_counterexample :
    (getFailureSummary []).lookup "most_common_type" = none ∧
    (getFailureSummary []).lookup "most_common_cause" = none ∧
    (getFailureSummary []).lookup "failure_count" = none :=
  ⟨rfl, rfl, rfl⟩

/-- C5 (amended): `get_failure_summary` applied to an empty batch
returns exactly the two-key dict with an empty `patterns` list and an
empty `recommendations` list, and no other entries. -/
theorem C5_empty_summary_amended :
    getFailureSummary [] =
      [("patterns", Jval.arr []), ("recommendations", Jval.arr [])] := rfl

/-! ## Environment probe (`services/environment_probe.py`) -/

/-- Python `int(q)` — truncation toward zero. -/
def pyTruncQ (q : ℚ) : ℤ := q.num / (q.den : ℤ)

/-- `EnvironmentProbe._parse_vector` (also duplicated verbatim in
`scene_parser.py`): strip surrounding brackets, split on commas, parse
floats, return the zero vector on any conversion failure or when fewer
than three components are present. -/
def parseVector (vector_str : String) : ℚ × ℚ × ℚ :=
  let cleaned := pyStripChars ['(', ')', '[', ']'] vector_str
  match (pySplit cleaned ",").mapM (fun x => pyFloat (pyStrip x)) with
  | none => (0, 0, 0)
  | some (a :: b :: c :: _) => (a, b, c)
  | some _ => (0, 0, 0)

/-- Object dict as produced by `EnvironmentProbe._parse_scene_objects`
(`properties` is created empty and never read, so it is not modelled). -/
structure ProbeObject where
  name : String
  type : String
  location : ℚ × ℚ × ℚ
  dimensions : ℚ × ℚ × ℚ
  materials : List String
  deriving DecidableEq

/-- Fresh object dict from an `Object:` header line. -/
def probeNewObject (name : String) : ProbeObject :=
  { name := name, type := "unknown", location := (0, 0, 0),
    dimensions := (1, 1, 1), materials := [] }

/-- One line of `EnvironmentProbe._parse_scene_objects`'s scan.  State:
objects collected so far and the currently open object dict. -/
def probeStep (st : List ProbeObject × Option ProbeObject) (line0 : String) :
    List ProbeObject × Option ProbeObject :=
  let line := pyStrip line0
  if pyStartsWith line "Object:" || pyStartsWith line "- Object:" then
    (st.1 ++ st.2.toList, some (probeNewObject (pyStrip (pySplitLast line "Object:"))))
  else
    match st.2 with
    | none => st
    | some cur =>
      if pyIn "Location:" line then
        (st.1, some { cur with location := parseVector (pyStrip (pySplitLast line "Location:")) })
      else if pyIn "Dimensions:" line then
        (st.1, some { cur with dimensions := parseVector (pyStrip (pySplitLast line "Dimensions:")) })
      else if pyIn "Type:" line then
        (st.1, some { cur with type := pyStrip (pySplitLast line "Type:") })
      else if pyIn "Material:" line then
        (st.1, some { cur with materials := cur.materials ++ [pyStrip (pySplitLast line "Material:")] })
      else st

/-- `EnvironmentProbe._parse_scene_objects` on a string input: scan the
lines, then flush the still-open object. -/
def parseSceneObjects (scene_info : String) : List ProbeObject :=
  let st := (pySplit scene_info "\n").foldl probeStep ([], none)
  st.1 ++ st.2.toList

/-- `ObjectMetrics` dataclass of environment_probe.py. -/
structure ObjectMetrics where
  name : String
  object_type : String
  position : ℚ × ℚ × ℚ
  dimensions : ℚ × ℚ × ℚ
  volume : ℚ
  surface_area : ℚ
  material_count : ℕ
  vertex_count : ℤ
  face_count : ℤ
  is_manifold : Bool
  normal_consistency : ℚ
  deriving DecidableEq

/-- `EnvironmentProbe._estimate_vertex_count`. -/
def estimateVertexCount (obj_type : String) (dimensions : ℚ × ℚ × ℚ) : ℤ :=
  let baseVertices : List (String × ℤ) :=
    [("cube", 8), ("sphere", 32), ("cylinder", 24), ("plane", 4), ("monkey", 500)]
  let base := ((baseVertices.find? (fun p => p.1 == pyLower obj_type)).map Prod.snd).getD 8
  let sizeFactor := (dimensions.1 + dimensions.2.1 + dimensions.2.2) / 3
  pyTruncQ ((base : ℚ) * max 1 sizeFactor)

/-- `EnvironmentProbe._estimate_face_count`. -/
def estimateFaceCount (obj_type : String) (dimensions : ℚ × ℚ × ℚ) : ℤ :=
  let baseFaces : List (String × ℤ) :=
    [("cube", 6), ("sphere", 32), ("cylinder", 12), ("plane", 1), ("monkey", 500)]
  let base := ((baseFaces.find? (fun p => p.1 == pyLower obj_type)).map Prod.snd).getD 6
  let sizeFactor := (dimensions.1 + dimensions.2.1 + dimensions.2.2) / 3
  pyTruncQ ((base : ℚ) * max 1 sizeFactor)

/-- `EnvironmentProbe._analyze_object_metrics`. -/
def analyzeObjectMetrics (objects : List ProbeObject) : List ObjectMetrics :=
  objects.map (fun obj =>
    let dims := obj.dimensions
    { name := obj.name
      object_type := obj.type
      position := obj.location
      dimensions := dims
      volume := dims.1 * dims.2.1 * dims.2.2
      surface_area := 2 * (dims.1 * dims.2.1 + dims.2.1 * dims.2.2 + dims.2.2 * dims.1)
      material_count := obj.materials.length
      vertex_count := estimateVertexCount obj.type dims
      face_count := estimateFaceCount obj.type dims
      is_manifold := true
      normal_consistency := 1 })

/-- `LightingMetrics` dataclass of environment_probe.py. -/
structure LightingMetrics where
  light_count : ℕ
  total_lumens : ℚ
  color_temperatures : List ℚ
  shadow_softness : ℚ
  light_distribution : List (String × ℚ)
  contrast_ratio : ℚ
  average_illuminance : ℚ
  darkest_point : ℚ
  brightest_point : ℚ
  deriving DecidableEq

/-- `EnvironmentProbe._analyze_lighting_metrics`. -/
def analyzeLightingMetrics (objects : List ProbeObject) : LightingMetrics :=
  let lights := objects.filter (fun o => pyIn "light" (pyLower o.type))
  let acc := lights.foldl
    (fun (acc : ℚ × List ℚ) l =>
      if pyIn "sun" (pyLower l.type) then (acc.1 + 100000, acc.2 ++ [5500])
      else if pyIn "point" (pyLower l.type) then (acc.1 + 800, acc.2 ++ [2700])
      else if pyIn "area" (pyLower l.type) then (acc.1 + 2000, acc.2 ++ [4000])
      else acc)
    (0, [])
  let totalLumens := acc.1
  let averageIlluminance := totalLumens / 20
  { light_count := lights.length
    total_lumens := totalLumens
    color_temperatures := acc.2
    shadow_softness := 7 / 10
    light_distribution :=
      [("general", totalLumens * (6 / 10)), ("task", totalLumens * (3 / 10)),
       ("accent", totalLumens * (1 / 10))]
    contrast_ratio := 3
    average_illuminance := averageIlluminance
    darkest_point := averageIlluminance * (1 / 10)
    brightest_point := averageIlluminance * 3 }

/-- `SpatialMetrics` dataclass (the `object_distances` field applies a
real square root that no claim inspects and is not modelled; the
functional-zone dict is modelled as zone name ↦ member object names,
its constant `"center"` entry being never updated nor read). -/
structure SpatialMetrics where
  room_dimensions : ℚ × ℚ × ℚ
  usable_volume : ℚ
  object_density : ℚ
  traffic_flow_score : ℚ
  functional_zones : List (String × List String)
  alignment_consistency : ℚ
  proportional_balance : ℚ
  deriving DecidableEq

/-- Append a member to a zone, creating the zone at the end on first
use (Python `dict.setdefault` + list append). -/
def zoneAppend (zones : List (String × List String)) (z n : String) :
    List (String × List String) :=
  if zones.any (fun p => p.1 == z) then
    zones.map (fun p => if p.1 == z then (p.1, p.2 ++ [n]) else p)
  else zones ++ [(z, [n])]

/-- `EnvironmentProbe._identify_functional_zones`. -/
def identifyFunctionalZones (objects : List ObjectMetrics) :
    List (String × List String) :=
  objects.foldl
    (fun zones obj =>
      let objName := pyLower obj.name
      if ["table", "chair", "counter", "stove", "sink"].any (fun kw => pyIn kw objName) then
        zoneAppend zones "kitchen" obj.name
      else if ["sofa", "couch", "tv", "television", "coffee"].any (fun kw => pyIn kw objName) then
        zoneAppend zones "living" obj.name
      else if ["bed", "nightstand", "lamp"].any (fun kw => pyIn kw objName) then
        zoneAppend zones "bedroom" obj.name
      else zones)
    []

/-- `EnvironmentProbe._calculate_alignment_consistency`. -/
def calculateAlignmentConsistency (objects : List ObjectMetrics) : ℚ :=
  if objects.length < 2 then 1
  else
    let positions := objects.map (fun o => o.position)
    let n : ℚ := (positions.length : ℚ)
    let xVariance := (positions.map (fun p => (p.1 - (positions.map (fun q => q.1)).sum / n) ^ 2)).sum
    let yVariance := (positions.map (fun p => (p.2.1 - (positions.map (fun q => q.2.1)).sum / n) ^ 2)).sum
    let zVariance := (positions.map (fun p => (p.2.2 - (positions.map (fun q => q.2.2)).sum / n) ^ 2)).sum
    let maxVariance := max (max xVariance yVariance) zVariance + 1 / 1000000
    let alignmentScore := 1 - maxVariance / (maxVariance + 1)
    max 0 (min 1 alignmentScore)

/-- `EnvironmentProbe._calculate_proportional_balance`. -/
def calculateProportionalBalance (objects : List ObjectMetrics) : ℚ :=
  if objects.length < 2 then 1
  else
    let volumes := objects.map (fun o => o.volume)
    let totalVolume := volumes.sum
    if totalVolume = 0 then 1
    else
      let avgVolume := totalVolume / (volumes.length : ℚ)
      let volumeVariance := (volumes.map (fun v => (v - avgVolume) ^ 2)).sum / (volumes.length : ℚ)
      let maxVariance := avgVolume ^ 2 + 1 / 1000000
      let balanceScore := 1 - volumeVariance / maxVariance
      max 0 (min 1 balanceScore)

/-- `EnvironmentProbe._analyze_spatial_metrics`.  The source has a
second early return guarded by `if not all_positions`, unreachable once
`object_metrics` is non-empty; it is reproduced faithfully. -/
def analyzeSpatialMetrics (object_metrics : List ObjectMetrics) : SpatialMetrics :=
  match object_metrics with
  | [] =>
    { room_dimensions := (0, 0, 0), usable_volume := 0, object_density := 0,
      traffic_flow_score := 0, functional_zones := [],
      alignment_consistency := 0, proportional_balance := 0 }
  | o :: os =>
    let objs := o :: os
    let allPositions := objs.map (fun x => x.position)
    if allPositions.isEmpty then
      { room_dimensions := (10, 10, 3), usable_volume := 300, object_density := 0,
        traffic_flow_score := 1 / 2, functional_zones := [],
        alignment_consistency := 1 / 2, proportional_balance := 1 / 2 }
    else
      let lows := objs.map (fun x => (x.position.1 - x.dimensions.1 / 2,
        x.position.2.1 - x.dimensions.2.1 / 2, x.position.2.2 - x.dimensions.2.2 / 2))
      let highs := objs.map (fun x => (x.position.1 + x.dimensions.1 / 2,
        x.position.2.1 + x.dimensions.2.1 / 2, x.position.2.2 + x.dimensions.2.2 / 2))
      let minX := (lows.map (fun p => p.1)).foldl min ((o.position.1 - o.dimensions.1 / 2))
      let maxX := (highs.map (fun p => p.1)).foldl max ((o.position.1 + o.dimensions.1 / 2))
      let minY := (lows.map (fun p => p.2.1)).foldl min ((o.position.2.1 - o.dimensions.2.1 / 2))
      let maxY := (highs.map (fun p => p.2.1)).foldl max ((o.position.2.1 + o.dimensions.2.1 / 2))
      let minZ := (lows.map (fun p => p.2.2)).foldl min ((o.position.2.2 - o.dimensions.2.2 / 2))
      let maxZ := (highs.map (fun p => p.2.2)).foldl max ((o.position.2.2 + o.dimensions.2.2 / 2))
      let roomDimensions := (max (maxX - minX) 5, max (maxY - minY) 5, max (maxZ - minZ) (5 / 2))
      let usableVolume := roomDimensions.1 * roomDimensions.2.1 * roomDimensions.2.2
      let totalObjectVolume := (objs.map (fun x => x.volume)).sum
      let objectDensity := if usableVolume > 0 then totalObjectVolume / usableVolume else 0
      { room_dimensions := roomDimensions
        usable_volume := usableVolume
        object_density := objectDensity
        traffic_flow_score := max (1 / 10) (1 - objectDensity)
        functional_zones := identifyFunctionalZones objs
        alignment_consistency := calculateAlignmentConsistency objs
        proportional_balance := calculateProportionalBalance objs }

/-! ## Full scene analysis (`EnvironmentProbe.analyze_complete_scene`) -/

/-- `AestheticMetrics` dataclass (constant placeholder values in
`_analyze_aesthetic_metrics`). -/
structure AestheticMetrics where
  color_palette : List String
  color_harmony_score : ℚ
  style_consistency : ℚ
  visual_balance : ℚ
  focal_point_strength : ℚ
  material_coherence : ℚ
  texture_variety : ℚ
  overall_atmosphere : String
  deriving DecidableEq

/-- `EnvironmentProbe._analyze_aesthetic_metrics` (ignores both
arguments and returns fixed estimates). -/
def analyzeAestheticMetrics (_objects : List ObjectMetrics)
    (_lighting : LightingMetrics) : AestheticMetrics :=
  { color_palette := ["neutral", "warm", "modern"],
    color_harmony_score := 8 / 10, style_consistency := 3 / 4,
    visual_balance := 7 / 10, focal_point_strength := 6 / 10,
    material_coherence := 8 / 10, texture_variety := 6 / 10,
    overall_atmosphere := "cozy modern" }

/-- The summary dict of `EnvironmentProbe._generate_summary`. -/
structure SummaryRec where
  total_objects : ℕ
  total_lights : ℕ
  room_size : ℚ × ℚ × ℚ
  object_density : ℚ
  lighting_quality : String
  style_consistency : ℚ
  functional_completeness : ℕ
  overall_score : ℚ
  deriving DecidableEq

/-- `EnvironmentProbe._generate_summary`. -/
def generateSummary (objects : List ObjectMetrics) (lighting : LightingMetrics)
    (spatial : SpatialMetrics) (aesthetic : AestheticMetrics) : SummaryRec :=
  { total_objects := objects.length,
    total_lights := lighting.light_count,
    room_size := spatial.room_dimensions,
    object_density := spatial.object_density,
    lighting_quality := if lighting.average_illuminance > 100 then "adequate" else "poor",
    style_consistency := aesthetic.style_consistency,
    functional_completeness := spatial.functional_zones.length,
    overall_score := (aesthetic.style_consistency + spatial.proportional_balance +
      lighting.average_illuminance / 500) / 3 }

/-- `EnvironmentProbe._identify_issues`. -/
def identifyIssues (_objects : List ObjectMetrics) (lighting : LightingMetrics)
    (spatial : SpatialMetrics) (aesthetic : AestheticMetrics) : List String :=
  (if lighting.average_illuminance < 100 then ["Insufficient lighting"] else []) ++
  (if lighting.contrast_ratio > 10 then ["Lighting contrast too high"] else []) ++
  (if spatial.object_density > 3 / 10 then ["Scene too cluttered"] else []) ++
  (if spatial.traffic_flow_score < 1 / 2 then ["Poor traffic flow"] else []) ++
  (if aesthetic.style_consistency < 6 / 10 then ["Inconsistent style"] else []) ++
  (if aesthetic.visual_balance < 1 / 2 then ["Poor visual balance"] else [])

/-- `EnvironmentProbe._generate_recommendations`. -/
def generateRecommendations (_objects : List ObjectMetrics) (lighting : LightingMetrics)
    (spatial : SpatialMetrics) (aesthetic : AestheticMetrics) : List String :=
  (if lighting.average_illuminance < 100 then ["Add ambient lighting"] else []) ++
  (if lighting.light_count < 2 then ["Add task lighting"] else []) ++
  (if spatial.object_density > 3 / 10 then ["Reduce object density"] else []) ++
  (if spatial.functional_zones.length < 3 then ["Define more functional zones"] else []) ++
  (if aesthetic.style_consistency < 6 / 10 then ["Unify material styles"] else [])

/-- The analysis dict returned by `analyze_complete_scene` on the
success path. -/
structure AnalysisReport where
  objects : List ObjectMetrics
  lighting : LightingMetrics
  spatial : SpatialMetrics
  aesthetic : AestheticMetrics
  summary : SummaryRec
  issues : List String
  recommendations : List String
  deriving DecidableEq

/-- `EnvironmentProbe.analyze_complete_scene` on a string input.  Every
step of the body is total in the embedding (the vector parser and the
rational arithmetic cannot raise), so the `except` branch that would
return the degraded `{"issues": ["Analysis failed"], ...}` report is
unreachable and the success-path dict is always produced. -/
def analyzeCompleteScene (scene_info : String) : AnalysisReport :=
  let basic_objects := parseSceneObjects scene_info
  let object_metrics := analyzeObjectMetrics basic_objects
  let lighting_metrics := analyzeLightingMetrics basic_objects
  let spatial_metrics := analyzeSpatialMetrics object_metrics
  let aesthetic_metrics := analyzeAestheticMetrics object_metrics lighting_metrics
  { objects := object_metrics, lighting := lighting_metrics,
    spatial := spatial_metrics, aesthetic := aesthetic_metrics,
    summary := generateSummary object_metrics lighting_metrics spatial_metrics aesthetic_metrics,
    issues := identifyIssues object_metrics lighting_metrics spatial_metrics aesthetic_metrics,
    recommendations := generateRecommendations object_metrics lighting_metrics
      spatial_metrics aesthetic_metrics }

/-! ## Claims C4 and C10 -/

/-- C4 (counterexample): the empty scene parses to zero objects, and
`_analyze_spatial_metrics` then takes its empty-input early return, in
which `alignment_consistency` and `proportional_balance` are 0.0 — not
1.0 as the claim states for "0 or 1 objects". -/
theorem C4_zero_objects_counterexample :
    parseSceneObjects "" = [] ∧
    (analyzeCompleteScene "").spatial.alignment_consistency = 0 ∧
    (analyzeCompleteScene "").spatial.proportional_balance = 0 ∧
    ¬ ((analyzeCompleteScene "").spatial.alignment_consistency = 1) :=
  ⟨by decide, by decide, by decide, by decide⟩

/-- Degenerate spatial scores at the object-list level (helper for
C4): exactly one object yields both scores 1.0; zero objects take the
early return with both scores 0.0. -/
theorem spatial_scores_degenerate (objs : List ProbeObject) :
    (objs.length = 1 →
      (analyzeSpatialMetrics (analyzeObjectMetrics objs)).alignment_consistency = 1 ∧
      (analyzeSpatialMetrics (analyzeObjectMetrics objs)).proportional_balance = 1) ∧
    (objs.length = 0 →
      (analyzeSpatialMetrics (analyzeObjectMetrics objs)).alignment_consistency = 0 ∧
      (analyzeSpatialMetrics (analyzeObjectMetrics objs)).proportional_balance = 0) := by
  match objs with
  | [] => exact ⟨fun h => by simp at h, fun _ => ⟨rfl, rfl⟩⟩
  | [o] =>
    refine ⟨fun _ => ?_, fun h => by simp at h⟩
    constructor
    · simp [analyzeObjectMetrics, analyzeSpatialMetrics, calculateAlignmentConsistency]
    · simp [analyzeObjectMetrics, analyzeSpatialMetrics, calculateProportionalBalance]
  | a :: b :: l =>
    exact ⟨fun h => by simp at h, fun h => by simp at h⟩

/-- C4 (amended): for every scene whose parsed object list has exactly
one object, the spatial metrics produced by the environment probe's
analysis have `alignment_consistency = 1.0` and
`proportional_balance = 1.0` exactly (the variance helpers return 1.0
for fewer than 2 objects), while for a scene with zero objects
`_analyze_spatial_metrics` early-returns with both scores equal to
0.0. -/
theorem C4_degenerate_spatial_scores_amended (s : String) :
    ((parseSceneObjects s).length = 1 →
      (analyzeCompleteScene s).spatial.alignment_consistency = 1 ∧
      (analyzeCompleteScene s).spatial.proportional_balance = 1) ∧
    ((parseSceneObjects s).length = 0 →
      (analyzeCompleteScene s).spatial.alignment_consistency = 0 ∧
      (analyzeCompleteScene s).spatial.proportional_balance = 0) := by
  have hs : (analyzeCompleteScene s).spatial =
      analyzeSpatialMetrics (analyzeObjectMetrics (parseSceneObjects s)) := rfl
  rw [hs]
  exact spatial_scores_degenerate (parseSceneObjects s)

/-- C4 (witness): the amended theorem applied to a concrete one-object
scene and to the empty scene. -/
theorem C4_degenerate_spatial_scores_amended_witness :
    (parseSceneObjects "Object: Chair").length = 1 ∧
    ((analyzeCompleteScene "Object: Chair").spatial.alignment_consistency = 1 ∧
     (analyzeCompleteScene "Object: Chair").spatial.proportional_balance = 1) ∧
    (parseSceneObjects "").length = 0 ∧
    ((analyzeCompleteScene "").spatial.alignment_consistency = 0 ∧
     (analyzeCompleteScene "").spatial.proportional_balance = 0) :=
  ⟨by decide,
   (C4_degenerate_spatial_scores_amended "Object: Chair").1 (by decide),
   by decide,
   (C4_degenerate_spatial_scores_amended "").2 (by decide)⟩

/-- C10: adding one light whose (lowercased) type contains the "sun"
keyword — and the "light" keyword making it a light at all — to an
otherwise empty object list raises `total_lumens` from 0 by exactly
100000 and appends the single color-temperature entry 5500; a light of
any type matching none of the sun/point/area keywords contributes no
lumens. -/
theorem C10_sun_light_lumens (o u : ProbeObject)
    (hol : pyIn "light" (pyLower o.type) = true)
    (hos : pyIn "sun" (pyLower o.type) = true)
    (hul : pyIn "light" (pyLower u.type) = true)
    (hus : pyIn "sun" (pyLower u.type) = false)
    (hup : pyIn "point" (pyLower u.type) = false)
    (hua : pyIn "area" (pyLower u.type) = false) :
    (analyzeLightingMetrics []).total_lumens = 0 ∧
    (analyzeLightingMetrics [o]).total_lumens =
      (analyzeLightingMetrics []).total_lumens + 100000 ∧
    (analyzeLightingMetrics [o]).color_temperatures =
      (analyzeLightingMetrics []).color_temperatures ++ [5500] ∧
    (analyzeLightingMetrics [u]).total_lumens = 0 := by
  refine ⟨rfl, ?_, ?_, ?_⟩
  · simp [analyzeLightingMetrics, List.filter, hol, hos]
  · simp [analyzeLightingMetrics, List.filter, hol, hos]
  · simp [analyzeLightingMetrics, List.filter, hul, hus, hup, hua]

/-- A concrete sun-type light. -/
def sunLightObj : ProbeObject :=
  { name := "Sun", type := "SUN_LIGHT", location := (0, 0, 0),
    dimensions := (1, 1, 1), materials := [] }

/-- A concrete light of a type none of the lumen rules recognize. -/
def spotLightObj : ProbeObject :=
  { name := "Spot", type := "SPOT_LIGHT", location := (0, 0, 0),
    dimensions := (1, 1, 1), materials := [] }

/-- C10 (witness): the theorem applied to a concrete `SUN_LIGHT` and a
concrete unrecognized `SPOT_LIGHT`. -/
theorem C10_sun_light_lumens_witness :
    (analyzeLightingMetrics []).total_lumens = 0 ∧
    (analyzeLightingMetrics [sunLightObj]).total_lumens =
      (analyzeLightingMetrics []).total_lumens + 100000 ∧
    (analyzeLightingMetrics [sunLightObj]).color_temperatures =
      (analyzeLightingMetrics []).color_temperatures ++ [5500] ∧
    (analyzeLightingMetrics [spotLightObj]).total_lumens = 0 :=
  C10_sun_light_lumens sunLightObj spotLightObj (by decide) (by decide)
    (by decide) (by decide) (by decide) (by decide)

/-! ## Scene parser (`services/scene_parser.py`) -/

/-- Python exception values observable in the embedding. -/
inductive PyErr where
  | valueError (msg : String)
  | typeError (msg : String)
  | attributeError (name : String)
  | importError (name : String)
  | execError (msg : String)
  deriving DecidableEq

/-- `SceneParser._parse_color`: strip brackets, split on commas, parse
floats; 3 components get alpha 1.0; anything else — wrong arity or a
conversion failure — yields opaque white. -/
def parseColor (color_str : String) : ℚ × ℚ × ℚ × ℚ :=
  let cleaned := pyStripChars ['(', ')', '[', ']'] color_str
  match (pySplit cleaned ",").mapM (fun x => pyFloat (pyStrip x)) with
  | none => (1, 1, 1, 1)
  | some [a, b, c] => (a, b, c, 1)
  | some [a, b, c, d] => (a, b, c, d)
  | some _ => (1, 1, 1, 1)

/-- `SceneObject` dataclass (scene_parser.py). -/
structure SceneObject where
  name : String
  object_type : String
  location : ℚ × ℚ × ℚ
  rotation : ℚ × ℚ × ℚ
  scale : ℚ × ℚ × ℚ
  dimensions : ℚ × ℚ × ℚ
  bounding_box : (ℚ × ℚ × ℚ) × (ℚ × ℚ × ℚ)
  vertex_count : ℤ
  face_count : ℤ
  edge_count : ℤ
  materials : List String
  parent : Option String
  children : List String
  visibility : Bool
  selectability : Bool
  renderability : Bool
  custom_properties : List (String × Jval)

/-- `SceneLight` dataclass (scene_parser.py). -/
structure SceneLight where
  name : String
  light_type : String
  location : ℚ × ℚ × ℚ
  rotation : ℚ × ℚ × ℚ
  energy : ℚ
  color : ℚ × ℚ × ℚ × ℚ
  temperature : ℚ
  size : ℚ
  spot_size : Option ℚ
  spot_blend : Option ℚ
  shadows : Bool
  shadow_cascade : String
  light_group : Option String

/-- `SceneCamera` dataclass (scene_parser.py). -/
structure SceneCamera where
  name : String
  location : ℚ × ℚ × ℚ
  rotation : ℚ × ℚ × ℚ
  focal_length : ℚ
  sensor_width : ℚ
  sensor_height : ℚ
  clip_start : ℚ
  clip_end : ℚ
  dof_distance : Option ℚ
  dof_fstop : Option ℚ
  is_active : Bool

/-- `SceneMaterial` dataclass (scene_parser.py). -/
structure SceneMaterial where
  name : String
  base_color : ℚ × ℚ × ℚ × ℚ
  metallic : ℚ
  roughness : ℚ
  specular : ℚ
  emission : ℚ × ℚ × ℚ × ℚ
  alpha : ℚ
  normal_map : Option String
  texture_paths : List String
  is_procedural : Bool
  node_count : ℤ

/-- `SceneState` dataclass (scene_parser.py). -/
structure SceneState where
  objects : List SceneObject
  lights : List SceneLight
  cameras : List SceneCamera
  materials : List SceneMaterial
  world_settings : List (String × Jval)
  scene_dimensions : ℚ × ℚ × ℚ
  total_vertices : ℤ
  total_faces : ℤ
  total_objects : ℕ
  render_engine : String
  unit_system : String
  frame_range : ℤ × ℤ
  fps : ℚ

/-- Fresh `SceneObject` from an `Object:` header line of
`_parse_text_scene` (also the shape built by `_fallback_parsing`). -/
def newSceneObject (name : String) : SceneObject :=
  { name := name, object_type := "MESH", location := (0, 0, 0),
    rotation := (0, 0, 0), scale := (1, 1, 1), dimensions := (1, 1, 1),
    bounding_box := ((0, 0, 0), (1, 1, 1)), vertex_count := 0,
    face_count := 0, edge_count := 0, materials := [], parent := none,
    children := [], visibility := true, selectability := true,
    renderability := true, custom_properties := [] }

/-- Fresh `SceneLight` from a `Light:` header line. -/
def newSceneLight (name : String) : SceneLight :=
  { name := name, light_type := "POINT", location := (0, 0, 0),
    rotation := (0, 0, 0), energy := 1, color := (1, 1, 1, 1),
    temperature := 5500, size := 1 / 10, spot_size := none,
    spot_blend := none, shadows := true, shadow_cascade := "NONE",
    light_group := none }

/-- Fresh `SceneCamera` from a `Camera:` header line. -/
def newSceneCamera (name : String) : SceneCamera :=
  { name := name, location := (0, 0, 0), rotation := (0, 0, 0),
    focal_length := 50, sensor_width := 36, sensor_height := 24,
    clip_start := 1 / 10, clip_end := 1000, dof_distance := none,
    dof_fstop := none, is_active := true }

/-- State of `_parse_text_scene`'s left-to-right scan. -/
structure ScanState where
  objects : List SceneObject
  lights : List SceneLight
  cameras : List SceneCamera
  curObject : Option SceneObject
  curLight : Option SceneLight
  curCamera : Option SceneCamera

/-- The scan's initial state. -/
def initScanState : ScanState :=
  { objects := [], lights := [], cameras := [],
    curObject := none, curLight := none, curCamera := none }

/-- A stripped line opening a new object record. -/
def isObjectHeaderLine (line : String) : Bool :=
  pyStartsWith line "Object:" || pyStartsWith line "- Object:"

/-- A stripped line opening a new light record. -/
def isLightHeaderLine (line : String) : Bool :=
  pyStartsWith line "Light:" || pyStartsWith line "- Light:"

/-- A stripped line opening a new camera record. -/
def isCameraHeaderLine (line : String) : Bool :=
  pyStartsWith line "Camera:" || pyStartsWith line "- Camera:"


/-- Field setters used by the scan (Python attribute assignments). -/
def SceneObject.setLocation (v : ℚ × ℚ × ℚ) (o : SceneObject) : SceneObject :=
  { o with location := v }

def SceneObject.setRotation (v : ℚ × ℚ × ℚ) (o : SceneObject) : SceneObject :=
  { o with rotation := v }

def SceneObject.setScale (v : ℚ × ℚ × ℚ) (o : SceneObject) : SceneObject :=
  { o with scale := v }

def SceneObject.setDimensions (v : ℚ × ℚ × ℚ) (o : SceneObject) : SceneObject :=
  { o with dimensions := v }

def SceneObject.addMaterial (m : String) (o : SceneObject) : SceneObject :=
  { o with materials := o.materials ++ [m] }

def SceneObject.setVertexCount (n : ℤ) (o : SceneObject) : SceneObject :=
  { o with vertex_count := n }

def SceneObject.setFaceCount (n : ℤ) (o : SceneObject) : SceneObject :=
  { o with face_count := n }

def SceneLight.setEnergy (e : ℚ) (l : SceneLight) : SceneLight :=
  { l with energy := e }

def SceneLight.setColor (c : ℚ × ℚ × ℚ × ℚ) (l : SceneLight) : SceneLight :=
  { l with color := c }

def SceneCamera.setFocalLength (f : ℚ) (c : SceneCamera) : SceneCamera :=
  { c with focal_length := f }

def SceneCamera.setLocation (v : ℚ × ℚ × ℚ) (c : SceneCamera) : SceneCamera :=
  { c with location := v }

/-- Body of one line of `_parse_text_scene`'s scan after the initial
`line = line.strip()`, with the source's exact `elif` chain; `int()` /
`float()` conversion failures surface as `ValueError`s. -/
def textStepLine (st : ScanState) (line : String) : Except PyErr ScanState :=
  if line == "" then .ok st
  else if isObjectHeaderLine line then
    .ok { st with objects := st.objects ++ st.curObject.toList,
                  curObject := some (newSceneObject (pyStrip (pySplitLast line "Object:"))) }
  else if st.curObject.isSome && pyIn "Location:" line then
    .ok { st with curObject :=
      st.curObject.map (SceneObject.setLocation (parseVector (pyStrip (pySplitLast line "Location:")))) }
  else if st.curObject.isSome && pyIn "Rotation:" line then
    .ok { st with curObject :=
      st.curObject.map (SceneObject.setRotation (parseVector (pyStrip (pySplitLast line "Rotation:")))) }
  else if st.curObject.isSome && pyIn "Scale:" line then
    .ok { st with curObject :=
      st.curObject.map (SceneObject.setScale (parseVector (pyStrip (pySplitLast line "Scale:")))) }
  else if st.curObject.isSome && pyIn "Dimensions:" line then
    .ok { st with curObject :=
      st.curObject.map (SceneObject.setDimensions (parseVector (pyStrip (pySplitLast line "Dimensions:")))) }
  else if st.curObject.isSome && pyIn "Material:" line then
    .ok { st with curObject :=
      st.curObject.map (SceneObject.addMaterial (pyStrip (pySplitLast line "Material:"))) }
  else if st.curObject.isSome && pyIn "Vertices:" line then
    match pyInt (pyStrip (pySplitLast line "Vertices:")) with
    | none => .error (PyErr.valueError "invalid literal for int()")
    | some n => .ok { st with curObject := st.curObject.map (SceneObject.setVertexCount n) }
  else if st.curObject.isSome && pyIn "Faces:" line then
    match pyInt (pyStrip (pySplitLast line "Faces:")) with
    | none => .error (PyErr.valueError "invalid literal for int()")
    | some n => .ok { st with curObject := st.curObject.map (SceneObject.setFaceCount n) }
  else if isLightHeaderLine line then
    .ok { st with lights := st.lights ++ st.curLight.toList,
                  curLight := some (newSceneLight (pyStrip (pySplitLast line "Light:"))) }
  else if st.curLight.isSome && pyIn "Energy:" line then
    match pyFloat (pyStrip (pySplitLast line "Energy:")) with
    | none => .error (PyErr.valueError "could not convert string to float")
    | some e => .ok { st with curLight := st.curLight.map (SceneLight.setEnergy e) }
  else if st.curLight.isSome && pyIn "Color:" line then
    .ok { st with curLight :=
      st.curLight.map (SceneLight.setColor (parseColor (pyStrip (pySplitLast line "Color:")))) }
  else if isCameraHeaderLine line then
    .ok { st with cameras := st.cameras ++ st.curCamera.toList,
                  curCamera := some (newSceneCamera (pyStrip (pySplitLast line "Camera:"))) }
  else if st.curCamera.isSome && pyIn "Focal Length:" line then
    match pyFloat (pyStrip (pySplitLast line "Focal Length:")) with
    | none => .error (PyErr.valueError "could not convert string to float")
    | some f => .ok { st with curCamera := st.curCamera.map (SceneCamera.setFocalLength f) }
  else if st.curCamera.isSome && pyIn "Location:" line then
    .ok { st with curCamera :=
      st.curCamera.map (SceneCamera.setLocation (parseVector (pyStrip (pySplitLast line "Location:")))) }
  else .ok st

/-- One line of `_parse_text_scene`'s scan: strip, then dispatch. -/
def textStep (st : ScanState) (line0 : String) : Except PyErr ScanState :=
  textStepLine st (pyStrip line0)

/-- End-of-input flush of `_parse_text_scene` and construction of the
resulting `SceneState`. -/
def finishScan (st : ScanState) : SceneState :=
  let objects := st.objects ++ st.curObject.toList
  let lights := st.lights ++ st.curLight.toList
  let cameras := st.cameras ++ st.curCamera.toList
  { objects := objects, lights := lights, cameras := cameras,
    materials := [], world_settings := [], scene_dimensions := (10, 10, 3),
    total_vertices := (objects.map (fun o => o.vertex_count)).sum,
    total_faces := (objects.map (fun o => o.face_count)).sum,
    total_objects := objects.length, render_engine := "CYCLES",
    unit_system := "METRIC", frame_range := (1, 250), fps := 24 }

/-- `SceneParser._parse_text_scene`, as an exception-explicit
computation. -/
def parseTextSceneE (text_data : String) : Except PyErr SceneState := do
  let st ← (pySplit text_data "\n").foldlM textStep initScanState
  return finishScan st

/-- `SceneParser._fallback_parsing`: total — it performs no numeric
conversion and cannot raise on a string input. -/
def fallbackParsing (scene_info : String) : SceneState :=
  let objects := (pySplit scene_info "\n").foldl
    (fun objs line0 =>
      let line := pyStrip line0
      if line != "" && (pyIn "object" (pyLower line) || pyIn "Object:" line) then
        objs ++ [newSceneObject (if pyIn ":" line then pyStrip (pySplitLast line ":") else line)]
      else objs)
    []
  { objects := objects, lights := [], cameras := [], materials := [],
    world_settings := [], scene_dimensions := (10, 10, 3),
    total_vertices := 0, total_faces := 0, total_objects := objects.length,
    render_engine := "CYCLES", unit_system := "METRIC",
    frame_range := (1, 250), fps := 24 }

/-- `SceneParser.parse_scene_info`.  The JSON branch is parameterized:
`jsonLoads` stands for `json.loads` (`none` = `JSONDecodeError`, making
`_is_json` false) and `parseJsonScene` for `_parse_json_scene` on the
decoded value — the totality theorem below holds for *every* behavior
of these two, including raising, because the `try/except` falls back to
the total `_fallback_parsing`. -/
def parseSceneInfo (jsonLoads : String → Option Jval)
    (parseJsonScene : Jval → Except PyErr SceneState)
    (scene_info : String) : Except PyErr SceneState :=
  match (match jsonLoads scene_info with
         | some data => parseJsonScene data
         | none => parseTextSceneE scene_info) with
  | .ok st => .ok st
  | .error _ => .ok (fallbackParsing scene_info)

/-! ### Prefix disjointness of the three header kinds -/

theorem isSubListOf_comparable :
    ∀ (l p q : List Char), isSubListOf p l = true → isSubListOf q l = true →
      isSubListOf p q = true ∨ isSubListOf q p = true := by
  intro l
  induction l with
  | nil =>
    intro p q hp hq
    cases p with
    | nil => exact Or.inl rfl
    | cons a as => simp [isSubListOf] at hp
  | cons c cs ih =>
    intro p q hp hq
    cases p with
    | nil => exact Or.inl rfl
    | cons a as =>
      cases q with
      | nil => exact Or.inr rfl
      | cons b bs =>
        simp only [isSubListOf, Bool.and_eq_true, beq_iff_eq] at hp hq
        rcases ih as bs hp.2 hq.2 with h | h
        · exact Or.inl (by simp [isSubListOf, hp.1, hq.1, h])
        · exact Or.inr (by simp [isSubListOf, hp.1, hq.1, h])

theorem not_both_starts (l p q : List Char)
    (hpq : isSubListOf p q = false) (hqp : isSubListOf q p = false)
    (hp : isSubListOf p l = true) : isSubListOf q l = false := by
  cases hq : isSubListOf q l
  · rfl
  · rcases isSubListOf_comparable l p q hp hq with h | h
    · rw [hpq] at h; exact absurd h (by simp)
    · rw [hqp] at h; exact absurd h (by simp)

theorem isLightHeaderLine_false_of_object (line : String)
    (h : isObjectHeaderLine line = true) : isLightHeaderLine line = false := by
  unfold isObjectHeaderLine pyStartsWith at h
  unfold isLightHeaderLine pyStartsWith
  rw [Bool.or_eq_true] at h
  have h1 : isSubListOf ("Light:").toList line.toList = false := by
    rcases h with h | h
    · exact not_both_starts _ _ _ (by decide) (by decide) h
    · exact not_both_starts _ _ _ (by decide) (by decide) h
  have h2 : isSubListOf ("- Light:").toList line.toList = false := by
    rcases h with h | h
    · exact not_both_starts _ _ _ (by decide) (by decide) h
    · exact not_both_starts _ _ _ (by decide) (by decide) h
  rw [h1, h2]; rfl

theorem isCameraHeaderLine_false_of_object (line : String)
    (h : isObjectHeaderLine line = true) : isCameraHeaderLine line = false := by
  unfold isObjectHeaderLine pyStartsWith at h
  unfold isCameraHeaderLine pyStartsWith
  rw [Bool.or_eq_true] at h
  have h1 : isSubListOf ("Camera:").toList line.toList = false := by
    rcases h with h | h
    · exact not_both_starts _ _ _ (by decide) (by decide) h
    · exact not_both_starts _ _ _ (by decide) (by decide) h
  have h2 : isSubListOf ("- Camera:").toList line.toList = false := by
    rcases h with h | h
    · exact not_both_starts _ _ _ (by decide) (by decide) h
    · exact not_both_starts _ _ _ (by decide) (by decide) h
  rw [h1, h2]; rfl

theorem isCameraHeaderLine_false_of_light (line : String)
    (h : isLightHeaderLine line = true) : isCameraHeaderLine line = false := by
  unfold isLightHeaderLine pyStartsWith at h
  unfold isCameraHeaderLine pyStartsWith
  rw [Bool.or_eq_true] at h
  have h1 : isSubListOf ("Camera:").toList line.toList = false := by
    rcases h with h | h
    · exact not_both_starts _ _ _ (by decide) (by decide) h
    · exact not_both_starts _ _ _ (by decide) (by decide) h
  have h2 : isSubListOf ("- Camera:").toList line.toList = false := by
    rcases h with h | h
    · exact not_both_starts _ _ _ (by decide) (by decide) h
    · exact not_both_starts _ _ _ (by decide) (by decide) h
  rw [h1, h2]; rfl

/-- The scan line is captured by one of the open object's attribute
branches (these precede the light and camera branches in the chain). -/
def objAttrCapture (st : ScanState) (line : String) : Bool :=
  st.curObject.isSome && (pyIn "Location:" line || pyIn "Rotation:" line ||
    pyIn "Scale:" line || pyIn "Dimensions:" line || pyIn "Material:" line ||
    pyIn "Vertices:" line || pyIn "Faces:" line)

/-- The scan line is captured by one of the open light's attribute
branches. -/
def lightAttrCapture (st : ScanState) (line : String) : Bool :=
  st.curLight.isSome && (pyIn "Energy:" line || pyIn "Color:" line)

/-- Per-line flush behavior of the scan (helper for C7): the object
collection grows exactly at object-header lines (closing the open
object), the light collection exactly at light-header lines not
captured by an open object's attribute branches, and the camera
collection exactly at camera-header lines captured by neither an open
object's nor an open light's attribute branches. -/
theorem textStepLine_spec (st st' : ScanState) (line : String)
    (h : textStepLine st line = Except.ok st') :
    st'.objects = st.objects ++
      (if isObjectHeaderLine line then st.curObject.toList else []) ∧
    st'.lights = st.lights ++
      (if isLightHeaderLine line && !objAttrCapture st line
       then st.curLight.toList else []) ∧
    st'.cameras = st.cameras ++
      (if isCameraHeaderLine line && !objAttrCapture st line
          && !lightAttrCapture st line
       then st.curCamera.toList else []) := by
  unfold textStepLine at h
  cases h0 : (line == "") with
  | true =>
    rw [if_pos h0] at h
    cases h
    have hline : line = "" := by simpa using h0
    subst hline
    refine ⟨by simp [(by decide : isObjectHeaderLine "" = false)],
      by simp [(by decide : isLightHeaderLine "" = false)],
      by simp [(by decide : isCameraHeaderLine "" = false)]⟩
  | false =>
    rw [if_neg (by simp [h0])] at h
    cases h1 : isObjectHeaderLine line with
    | true =>
      rw [if_pos h1] at h
      cases h
      have hL := isLightHeaderLine_false_of_object line h1
      have hC := isCameraHeaderLine_false_of_object line h1
      exact ⟨by simp [h1], by simp [hL], by simp [hC]⟩
    | false =>
      rw [if_neg (by simp [h1])] at h
      cases h2 : (st.curObject.isSome && pyIn "Location:" line) with
      | true =>
        rw [if_pos h2] at h
        cases h
        have hpair := Bool.and_eq_true_iff.mp h2
        have hcap : objAttrCapture st line = true := by
          unfold objAttrCapture
          simp [hpair.1, hpair.2]
        exact ⟨by simp [h1], by simp [hcap], by simp [hcap]⟩
      | false =>
        rw [if_neg (by simp [h2])] at h
        cases h3 : (st.curObject.isSome && pyIn "Rotation:" line) with
        | true =>
          rw [if_pos h3] at h
          cases h
          have hpair := Bool.and_eq_true_iff.mp h3
          have hcap : objAttrCapture st line = true := by
            unfold objAttrCapture
            simp [hpair.1, hpair.2]
          exact ⟨by simp [h1], by simp [hcap], by simp [hcap]⟩
        | false =>
          rw [if_neg (by simp [h3])] at h
          cases h4 : (st.curObject.isSome && pyIn "Scale:" line) with
          | true =>
            rw [if_pos h4] at h
            cases h
            have hpair := Bool.and_eq_true_iff.mp h4
            have hcap : objAttrCapture st line = true := by
              unfold objAttrCapture
              simp [hpair.1, hpair.2]
            exact ⟨by simp [h1], by simp [hcap], by simp [hcap]⟩
          | false =>
            rw [if_neg (by simp [h4])] at h
            cases h5 : (st.curObject.isSome && pyIn "Dimensions:" line) with
            | true =>
              rw [if_pos h5] at h
              cases h
              have hpair := Bool.and_eq_true_iff.mp h5
              have hcap : objAttrCapture st line = true := by
                unfold objAttrCapture
                simp [hpair.1, hpair.2]
              exact ⟨by simp [h1], by simp [hcap], by simp [hcap]⟩
            | false =>
              rw [if_neg (by simp [h5])] at h
              cases h6 : (st.curObject.isSome && pyIn "Material:" line) with
              | true =>
                rw [if_pos h6] at h
                cases h
                have hpair := Bool.and_eq_true_iff.mp h6
                have hcap : objAttrCapture st line = true := by
                  unfold objAttrCapture
                  simp [hpair.1, hpair.2]
                exact ⟨by simp [h1], by simp [hcap], by simp [hcap]⟩
              | false =>
                rw [if_neg (by simp [h6])] at h
                cases h7 : (st.curObject.isSome && pyIn "Vertices:" line) with
                | true =>
                  rw [if_pos h7] at h
                  cases hv7 : pyInt (pyStrip (pySplitLast line "Vertices:")) with
                  | none => rw [hv7] at h; exact absurd h (by simp)
                  | some n =>
                    rw [hv7] at h
                    cases h
                    have hpair := Bool.and_eq_true_iff.mp h7
                    have hcap : objAttrCapture st line = true := by
                      unfold objAttrCapture
                      simp [hpair.1, hpair.2]
                    exact ⟨by simp [h1], by simp [hcap], by simp [hcap]⟩
                | false =>
                  rw [if_neg (by simp [h7])] at h
                  cases h8 : (st.curObject.isSome && pyIn "Faces:" line) with
                  | true =>
                    rw [if_pos h8] at h
                    cases hv8 : pyInt (pyStrip (pySplitLast line "Faces:")) with
                    | none => rw [hv8] at h; exact absurd h (by simp)
                    | some n =>
                      rw [hv8] at h
                      cases h
                      have hpair := Bool.and_eq_true_iff.mp h8
                      have hcap : objAttrCapture st line = true := by
                        unfold objAttrCapture
                        simp [hpair.1, hpair.2]
                      exact ⟨by simp [h1], by simp [hcap], by simp [hcap]⟩
                  | false =>
                    rw [if_neg (by simp [h8])] at h
                    cases h9 : isLightHeaderLine line with
                    | true =>
                      rw [if_pos h9] at h
                      cases h
                      have hocap : objAttrCapture st line = false := by
                        unfold objAttrCapture
                        cases hso : st.curObject.isSome with
                        | false => simp
                        | true =>
                          rw [hso] at h2 h3 h4 h5 h6 h7 h8
                          simp only [Bool.true_and] at h2 h3 h4 h5 h6 h7 h8
                          simp [h2, h3, h4, h5, h6, h7, h8]
                      have hC := isCameraHeaderLine_false_of_light line h9
                      exact ⟨by simp [h1], by simp [h9, hocap], by simp [hC]⟩
                    | false =>
                      rw [if_neg (by simp [h9])] at h
                      cases h10 : (st.curLight.isSome && pyIn "Energy:" line) with
                      | true =>
                        rw [if_pos h10] at h
                        cases hv10 : pyFloat (pyStrip (pySplitLast line "Energy:")) with
                        | none => rw [hv10] at h; exact absurd h (by simp)
                        | some n =>
                          rw [hv10] at h
                          cases h
                          have hpair := Bool.and_eq_true_iff.mp h10
                          have hlcap : lightAttrCapture st line = true := by
                            unfold lightAttrCapture
                            simp [hpair.1, hpair.2]
                          exact ⟨by simp [h1], by simp [h9], by simp [hlcap]⟩
                      | false =>
                        rw [if_neg (by simp [h10])] at h
                        cases h11 : (st.curLight.isSome && pyIn "Color:" line) with
                        | true =>
                          rw [if_pos h11] at h
                          cases h
                          have hpair := Bool.and_eq_true_iff.mp h11
                          have hlcap : lightAttrCapture st line = true := by
                            unfold lightAttrCapture
                            simp [hpair.1, hpair.2]
                          exact ⟨by simp [h1], by simp [h9], by simp [hlcap]⟩
                        | false =>
                          rw [if_neg (by simp [h11])] at h
                          cases h12 : isCameraHeaderLine line with
                          | true =>
                            rw [if_pos h12] at h
                            cases h
                            have hocap : objAttrCapture st line = false := by
                              unfold objAttrCapture
                              cases hso : st.curObject.isSome with
                              | false => simp
                              | true =>
                                rw [hso] at h2 h3 h4 h5 h6 h7 h8
                                simp only [Bool.true_and] at h2 h3 h4 h5 h6 h7 h8
                                simp [h2, h3, h4, h5, h6, h7, h8]
                            have hlcap : lightAttrCapture st line = false := by
                              unfold lightAttrCapture
                              cases hsl : st.curLight.isSome with
                              | false => simp
                              | true =>
                                rw [hsl] at h10 h11
                                simp only [Bool.true_and] at h10 h11
                                simp [h10, h11]
                            exact ⟨by simp [h1], by simp [h9], by simp [h12, hocap, hlcap]⟩
                          | false =>
                            rw [if_neg (by simp [h12])] at h
                            cases h13 : (st.curCamera.isSome && pyIn "Focal Length:" line) with
                            | true =>
                              rw [if_pos h13] at h
                              cases hv13 : pyFloat (pyStrip (pySplitLast line "Focal Length:")) with
                              | none => rw [hv13] at h; exact absurd h (by simp)
                              | some n =>
                                rw [hv13] at h
                                cases h
                                exact ⟨by simp [h1], by simp [h9], by simp [h12]⟩
                            | false =>
                              rw [if_neg (by simp [h13])] at h
                              cases h14 : (st.curCamera.isSome && pyIn "Location:" line) with
                              | true =>
                                rw [if_pos h14] at h
                                cases h
                                exact ⟨by simp [h1], by simp [h9], by simp [h12]⟩
                              | false =>
                                rw [if_neg (by simp [h14])] at h
                                cases h
                                exact ⟨by simp [h1], by simp [h9], by simp [h12]⟩

/-! ## Claims C6 and C7 -/

/-- C6: for every input string, `parse_scene_info` returns a
`SceneState` and never raises — for *any* behavior of the JSON branch
(`json.loads` decoder and `_parse_json_scene` builder), since every
exception is caught and routed to the total `_fallback_parsing`; and
the malformed vector string "abc,1,2" parses to the zero vector. -/
theorem C6_parser_totality (jsonLoads : String → Option Jval)
    (parseJsonScene : Jval → Except PyErr SceneState) (s : String) :
    (∃ st, parseSceneInfo jsonLoads parseJsonScene s = Except.ok st) ∧
    parseVector "abc,1,2" = (0, 0, 0) := by
  constructor
  · unfold parseSceneInfo
    rcases hm : (match jsonLoads s with
                 | some data => parseJsonScene data
                 | none => parseTextSceneE s) with e | st
    · rw [hm]; exact ⟨fallbackParsing s, rfl⟩
    · rw [hm]; exact ⟨st, rfl⟩
  · decide

/-- C7 (counterexample): on the input
`"Object: A\nLight: L\nVertices: 7"`, the `Light:` header does *not*
close object A — the later `Vertices:` attribute line still modifies A
(its vertex count is 7 in the final state, not the default 0), because
the open-object attribute branches precede the light branches in the
`elif` chain.  This refutes both halves of the claim: an entity is not
closed by a header of a *different* kind, and attribute lines after a
new header can still modify the previously opened entity. -/
theorem C7_stale_entity_counterexample :
    ((parseTextSceneE "Object: A\nLight: L\nVertices: 7").toOption.map
      (fun st => st.objects.map (fun o => (o.name, o.vertex_count)))) =
      some [("A", 7)] ∧
    ((parseTextSceneE "Object: A\nLight: L\nVertices: 7").toOption.map
      (fun st => st.lights.map (fun l => l.name))) = some ["L"] := by
  exact ⟨by decide, by decide⟩

/-- C7 (amended): in the text parser's scan, an entity record is closed
and appended to its collection precisely when a new header line of the
*same* entity kind reaches its branch — object headers always close the
open object; light (resp. camera) headers close the open light
(resp. camera) only when the line is not captured by an earlier open
entity's attribute branches — and at end of input every still-open
record is flushed.  Attribute lines are dispatched to the first
matching open record in the chain's fixed priority order, so they can
still modify an entity opened before the latest header. -/
theorem C7_scan_flush_amended (st st' : ScanState) (line0 : String)
    (h : textStep st line0 = Except.ok st') :
    st'.objects = st.objects ++
      (if isObjectHeaderLine (pyStrip line0) then st.curObject.toList else []) ∧
    st'.lights = st.lights ++
      (if isLightHeaderLine (pyStrip line0) && !objAttrCapture st (pyStrip line0)
       then st.curLight.toList else []) ∧
    st'.cameras = st.cameras ++
      (if isCameraHeaderLine (pyStrip line0) && !objAttrCapture st (pyStrip line0)
          && !lightAttrCapture st (pyStrip line0)
       then st.curCamera.toList else []) ∧
    (finishScan st).objects = st.objects ++ st.curObject.toList ∧
    (finishScan st).lights = st.lights ++ st.curLight.toList ∧
    (finishScan st).cameras = st.cameras ++ st.curCamera.toList := by
  have hs := textStepLine_spec st st' (pyStrip line0) h
  exact ⟨hs.1, hs.2.1, hs.2.2, rfl, rfl, rfl⟩

/-- The scan state after processing the single header line
`"Object: A"` from the initial state. -/
def scanStateA : ScanState :=
  { objects := [], lights := [], cameras := [],
    curObject := some (newSceneObject "A"), curLight := none,
    curCamera := none }

/-- C7 (witness): the amended theorem applied to the concrete step
`textStep initScanState "Object: A"`. -/
theorem C7_scan_flush_amended_witness :
    scanStateA.objects = initScanState.objects ++
      (if isObjectHeaderLine (pyStrip "Object: A")
       then initScanState.curObject.toList else []) ∧
    scanStateA.lights = initScanState.lights ++
      (if isLightHeaderLine (pyStrip "Object: A")
          && !objAttrCapture initScanState (pyStrip "Object: A")
       then initScanState.curLight.toList else []) ∧
    scanStateA.cameras = initScanState.cameras ++
      (if isCameraHeaderLine (pyStrip "Object: A")
          && !objAttrCapture initScanState (pyStrip "Object: A")
          && !lightAttrCapture initScanState (pyStrip "Object: A")
       then initScanState.curCamera.toList else []) ∧
    (finishScan initScanState).objects =
      initScanState.objects ++ initScanState.curObject.toList ∧
    (finishScan initScanState).lights =
      initScanState.lights ++ initScanState.curLight.toList ∧
    (finishScan initScanState).cameras =
      initScanState.cameras ++ initScanState.curCamera.toList :=
  C7_scan_flush_amended initScanState scanStateA "Object: A" rfl

/-! ## Context/session ledger (`services/context_manager.py`) -/

/-- Model of `datetime.datetime` values (the fields the ledger's
serialization renders and re-parses). -/

structure DateTime where
  year : ℕ
  month : ℕ
  day : ℕ
  hour : ℕ
  minute : ℕ
  second : ℕ
  microsecond : ℕ
  deriving DecidableEq

def digitChar (n : ℕ) : Char := Char.ofNat (48 + n)

def padDigits : ℕ → ℕ → List Char
  | 0, _ => []
  | w + 1, n => padDigits w (n / 10) ++ [digitChar (n % 10)]

def DateTime.isoCore (dt : DateTime) (sep : Char) : List Char :=
  padDigits 4 dt.year ++ ('-' :: (padDigits 2 dt.month ++ ('-' :: (padDigits 2 dt.day ++
    (sep :: (padDigits 2 dt.hour ++ (':' :: (padDigits 2 dt.minute ++ (':' :: (padDigits 2 dt.second ++
    (if dt.microsecond = 0 then [] else '.' :: padDigits 6 dt.microsecond)))))))))))

def DateTime.isoformat (dt : DateTime) : String := String.mk (dt.isoCore 'T')

def pyStrDateTime (dt : DateTime) : String := String.mk (dt.isoCore ' ')

def expectDigits (w : ℕ) (cs : List Char) : Option (ℕ × List Char) :=
  let t := cs.take w
  if t.length = w && t.all Char.isDigit then some (digitsToNat t, cs.drop w) else none

def expectChar (c : Char) : List Char → Option (List Char)
  | x :: rest => if x = c then some rest else none
  | [] => none

def fromisoList (cs : List Char) : Option DateTime := do
  let (y, cs) ← expectDigits 4 cs
  let cs ← expectChar '-' cs
  let (mo, cs) ← expectDigits 2 cs
  let cs ← expectChar '-' cs
  let (d, cs) ← expectDigits 2 cs
  let cs ← match cs with
    | _ :: rest => some rest
    | [] => none
  let (h, cs) ← expectDigits 2 cs
  let cs ← expectChar ':' cs
  let (mi, cs) ← expectDigits 2 cs
  let cs ← expectChar ':' cs
  let (sec, cs) ← expectDigits 2 cs
  match cs with
  | [] => some ⟨y, mo, d, h, mi, sec, 0⟩
  | '.' :: rest =>
    match expectDigits 6 rest with
    | some (us, rest2) => if rest2.isEmpty then some ⟨y, mo, d, h, mi, sec, us⟩ else none
    | none => none
  | _ => none

def fromisoformat (s : String) : Option DateTime := fromisoList s.toList

def DateTime.wfB (dt : DateTime) : Bool :=
  decide (dt.year < 10000) && decide (dt.month < 100) && decide (dt.day < 100) &&
  decide (dt.hour < 100) && decide (dt.minute < 100) && decide (dt.second < 100) &&
  decide (dt.microsecond < 1000000)

theorem length_padDigits (w n : ℕ) : (padDigits w n).length = w := by
  induction w generalizing n with
  | zero => rfl
  | succ w ih => simp [padDigits, ih]

theorem digitChar_toNat (d : ℕ) (h : d < 10) : (digitChar d).toNat = 48 + d := by
  interval_cases d <;> decide

theorem digitChar_isDigit (d : ℕ) (h : d < 10) : (digitChar d).isDigit = true := by
  interval_cases d <;> decide

theorem all_isDigit_padDigits (w n : ℕ) : (padDigits w n).all Char.isDigit = true := by
  induction w generalizing n with
  | zero => rfl
  | succ w ih =>
    simp [padDigits, List.all_append, ih, digitChar_isDigit _ (Nat.mod_lt _ (by norm_num))]

theorem foldl_digits_acc (b : List Char) (acc : ℕ) :
    b.foldl (fun a c => a * 10 + (c.toNat - 48)) acc =
      acc * 10 ^ b.length + b.foldl (fun a c => a * 10 + (c.toNat - 48)) 0 := by
  induction b generalizing acc with
  | nil => simp
  | cons c cs ih =>
    simp only [List.foldl_cons, List.length_cons]
    rw [ih (acc * 10 + (c.toNat - 48)), ih (0 * 10 + (c.toNat - 48))]
    ring

theorem digitsToNat_append (a b : List Char) :
    digitsToNat (a ++ b) = digitsToNat a * 10 ^ b.length + digitsToNat b := by
  unfold digitsToNat
  rw [List.foldl_append, foldl_digits_acc]

theorem digitsToNat_padDigits (w n : ℕ) (h : n < 10 ^ w) :
    digitsToNat (padDigits w n) = n := by
  induction w generalizing n with
  | zero =>
    simp at h
    simp [padDigits, digitsToNat, h]
  | succ w ih =>
    have hdiv : n / 10 < 10 ^ w := by
      rw [Nat.div_lt_iff_lt_mul (by norm_num)]
      calc n < 10 ^ (w + 1) := h
        _ = 10 ^ w * 10 := by ring
    rw [padDigits, digitsToNat_append, ih _ hdiv]
    have hone : digitsToNat [digitChar (n % 10)] = n % 10 := by
      unfold digitsToNat
      simp [digitChar_toNat _ (Nat.mod_lt _ (by norm_num))]
    rw [hone]
    simp
    omega

theorem expectDigits_padDigits (w n : ℕ) (rest : List Char) (h : n < 10 ^ w) :
    expectDigits w (padDigits w n ++ rest) = some (n, rest) := by
  unfold expectDigits
  have ht : (padDigits w n ++ rest).take w = padDigits w n :=
    List.take_left' (length_padDigits w n)
  have hd : (padDigits w n ++ rest).drop w = rest :=
    List.drop_left' (length_padDigits w n)
  simp only [ht, hd, length_padDigits, all_isDigit_padDigits, digitsToNat_padDigits w n h]
  simp

theorem expectChar_cons (c : Char) (rest : List Char) :
    expectChar c (c :: rest) = some rest := by simp [expectChar]

set_option maxHeartbeats 2000000 in
theorem fromisoList_isoCore (dt : DateTime) (sep : Char) (h : dt.wfB = true) :
    fromisoList (dt.isoCore sep) = some dt := by
  unfold DateTime.wfB at h
  simp only [Bool.and_eq_true, decide_eq_true_eq] at h
  obtain ⟨⟨⟨⟨⟨⟨hy, hmo⟩, hd⟩, hh⟩, hmi⟩, hs⟩, hus⟩ := h
  have e4 : ∀ rest, expectDigits 4 (padDigits 4 dt.year ++ rest) = some (dt.year, rest) :=
    fun rest => expectDigits_padDigits _ _ _ (by omega)
  have emo : ∀ rest, expectDigits 2 (padDigits 2 dt.month ++ rest) = some (dt.month, rest) :=
    fun rest => expectDigits_padDigits _ _ _ (by omega)
  have ed : ∀ rest, expectDigits 2 (padDigits 2 dt.day ++ rest) = some (dt.day, rest) :=
    fun rest => expectDigits_padDigits _ _ _ (by omega)
  have eh : ∀ rest, expectDigits 2 (padDigits 2 dt.hour ++ rest) = some (dt.hour, rest) :=
    fun rest => expectDigits_padDigits _ _ _ (by omega)
  have emi : ∀ rest, expectDigits 2 (padDigits 2 dt.minute ++ rest) = some (dt.minute, rest) :=
    fun rest => expectDigits_padDigits _ _ _ (by omega)
  have es : ∀ rest, expectDigits 2 (padDigits 2 dt.second ++ rest) = some (dt.second, rest) :=
    fun rest => expectDigits_padDigits _ _ _ (by omega)
  unfold fromisoList DateTime.isoCore
  have es0 : expectDigits 2 (padDigits 2 dt.second) = some (dt.second, []) := by
    simpa using es []
  by_cases hzero : dt.microsecond = 0
  · simp [hzero, e4, emo, ed, eh, emi, es, es0, expectChar_cons]
    conv_rhs => rw [show dt = ⟨dt.year, dt.month, dt.day, dt.hour, dt.minute,
      dt.second, dt.microsecond⟩ from rfl]
    rw [hzero]
  · have e6 : ∀ rest, expectDigits 6 (padDigits 6 dt.microsecond ++ rest) =
        some (dt.microsecond, rest) :=
      fun rest => expectDigits_padDigits _ _ _ (by omega)
    have e6' : expectDigits 6 (padDigits 6 dt.microsecond) = some (dt.microsecond, []) := by
      have := e6 []
      simpa using this
    simp [hzero, e4, emo, ed, eh, emi, es, expectChar_cons, e6']

namespace Ctx

structure LeadAgentResponse where
  sub_tasks : List Jval
  raw_response : String
  timestamp : DateTime

structure CodeGenerationTask where
  task_name : String
  instruction : String
  generated_code : String
  raw_response : String
  timestamp : DateTime

structure SceneEvaluation where
  match_score : ℚ
  suggestion : String
  timestamp : DateTime

structure ToolResult where
  tool_name : String
  result : Jval
  metadata : Jval
  timestamp : DateTime

structure SceneState where
  objects : List Jval
  lights : List Jval
  cameras : List Jval
  materials : List Jval
  scene_info : Jval
  timestamp : DateTime

structure ComponentProgress where
  component_type : String
  component_name : String
  status : String
  details : Jval
  iteration_added : ℤ
  timestamp : DateTime

structure IterationContext where
  iteration : ℤ
  lead_agent_response : Option LeadAgentResponse
  code_generation_tasks : List CodeGenerationTask
  scene_evaluation : Option SceneEvaluation
  tool_results : List ToolResult
  scene_state : Option SceneState
  component_progress : List ComponentProgress
  timestamp : DateTime

structure SceneDict where
  objects : List Jval
  lights : List Jval
  cameras : List Jval
  materials : List Jval
  scene_info : Jval

structure ContextManager where
  initial_requirement : String
  iterations : List IterationContext
  current_iteration : Option IterationContext
  final_result : Jval
  scene_state_history : List SceneState
  component_registry : List (String × ComponentProgress)

def ContextManager.new : ContextManager :=
  { initial_requirement := "", iterations := [], current_iteration := none,
    final_result := Jval.null, scene_state_history := [], component_registry := [] }

def ContextManager.set_initial_requirement (cm : ContextManager) (requirement : String) :
    ContextManager :=
  { cm with initial_requirement := requirement }

def ContextManager.start_iteration (cm : ContextManager) (iteration : ℤ) (now : DateTime) :
    ContextManager :=
  let fresh : IterationContext :=
    { iteration := iteration, lead_agent_response := none,
      code_generation_tasks := [], scene_evaluation := none, tool_results := [],
      scene_state := none, component_progress := [], timestamp := now }
  { cm with current_iteration := some fresh }

def ContextManager.store_lead_response (cm : ContextManager) (sub_tasks : List Jval)
    (raw_response : String) (now : DateTime) : ContextManager :=
  match cm.current_iteration with
  | none => cm
  | some cur =>
    let resp : LeadAgentResponse :=
      { sub_tasks := sub_tasks, raw_response := raw_response, timestamp := now }
    let cur' := { cur with lead_agent_response := some resp }
    { cm with current_iteration := some cur' }

def ContextManager.store_code_generation (cm : ContextManager) (task_name instruction
    code raw_response : String) (now : DateTime) : ContextManager :=
  match cm.current_iteration with
  | none => cm
  | some cur =>
    let task : CodeGenerationTask :=
      { task_name := task_name, instruction := instruction,
        generated_code := code, raw_response := raw_response, timestamp := now }
    let cur' := { cur with code_generation_tasks := cur.code_generation_tasks ++ [task] }
    { cm with current_iteration := some cur' }

def ContextManager.store_evaluation (cm : ContextManager) (match_score : ℚ)
    (suggestion : String) (now : DateTime) : ContextManager :=
  match cm.current_iteration with
  | none => cm
  | some cur =>
    let ev : SceneEvaluation :=
      { match_score := match_score, suggestion := suggestion, timestamp := now }
    let cur' := { cur with scene_evaluation := some ev }
    { cm with current_iteration := some cur' }

def ContextManager.store_tool_result (cm : ContextManager) (tool_name : String)
    (result : Jval) (metadata : Option Jval) (now : DateTime) : ContextManager :=
  match cm.current_iteration with
  | none => cm
  | some cur =>
    let tool : ToolResult :=
      { tool_name := tool_name, result := result,
        metadata := metadata.getD (Jval.obj []), timestamp := now }
    let cur' := { cur with tool_results := cur.tool_results ++ [tool] }
    { cm with current_iteration := some cur' }

def ContextManager.store_scene_state (cm : ContextManager) (scene_state : SceneDict)
    (now : DateTime) : ContextManager :=
  match cm.current_iteration with
  | none => cm
  | some cur =>
    let state : SceneState :=
      { objects := scene_state.objects, lights := scene_state.lights,
        cameras := scene_state.cameras, materials := scene_state.materials,
        scene_info := scene_state.scene_info, timestamp := now }
    let cur' := { cur with scene_state := some state }
    { cm with current_iteration := some cur',
              scene_state_history := cm.scene_state_history ++ [state] }

/-- Python dict assignment `m[k] = v`: overwrite in place, else append. -/
def dictSet {α : Type} (m : List (String × α)) (k : String) (v : α) :
    List (String × α) :=
  if m.any (fun p => p.1 == k) then
    m.map (fun p => if p.1 == k then (k, v) else p)
  else m ++ [(k, v)]

def ContextManager.update_component_progress (cm : ContextManager)
    (component_type component_name status : String) (details : Option Jval)
    (now : DateTime) : ContextManager :=
  match cm.current_iteration with
  | none => cm
  | some cur =>
    let progress : ComponentProgress :=
      { component_type := component_type, component_name := component_name,
        status := status, details := details.getD (Jval.obj []),
        iteration_added := cur.iteration, timestamp := now }
    let cur' := { cur with component_progress := cur.component_progress ++ [progress] }
    { cm with
      current_iteration := some cur',
      component_registry :=
        dictSet cm.component_registry (component_type ++ ":" ++ component_name) progress }

def ContextManager.complete_iteration (cm : ContextManager) : ContextManager :=
  match cm.current_iteration with
  | none => cm
  | some cur => { cm with iterations := cm.iterations ++ [cur], current_iteration := none }

def ContextManager.set_final_result (cm : ContextManager) (result : Jval) : ContextManager :=
  { cm with final_result := result }

def ContextManager.get_context_for_llm (cm : ContextManager) : String :=
  let parts :=
    ["Initial Requirement: " ++ cm.initial_requirement,
     "\n=== CURRENT SCENE STATE ==="]
  let parts := parts ++
    (match cm.scene_state_history.getLast? with
     | some current_state =>
       ["Objects: " ++ toString current_state.objects.length,
        "Lights: " ++ toString current_state.lights.length,
        "Cameras: " ++ toString current_state.cameras.length,
        "Materials: " ++ toString current_state.materials.length]
     | none => [])
  let parts := parts ++ ["\n=== COMPONENT PROGRESS ==="]
  let parts := parts ++
    cm.component_registry.map (fun p => p.1 ++ ": " ++ p.2.status)
  let parts := parts ++ ["\n=== PREVIOUS ITERATIONS ==="]
  let parts := parts ++ cm.iterations.flatMap (fun it =>
    ["\nIteration " ++ toString it.iteration] ++
    (match it.scene_evaluation with
     | some e => ["Evaluation Score: " ++ toString e.match_score,
                  "Suggestion: " ++ e.suggestion]
     | none => []) ++
    (if it.component_progress.isEmpty then []
     else "Components updated:" ::
       it.component_progress.map (fun comp =>
         "  - " ++ comp.component_type ++ ": " ++ comp.component_name ++
           " (" ++ comp.status ++ ")")))
  String.intercalate "\n" parts

/-- Rendering of a `datetime` under `json.dump(..., default=str)`:
`str(dt)`, the space-separated ISO form. -/
def dtStr (dt : DateTime) : Jval := Jval.str (pyStrDateTime dt)

/-- Rendering via the explicit `.isoformat()` calls in
`get_full_context` ('T'-separated). -/
def dtIso (dt : DateTime) : Jval := Jval.str (DateTime.isoformat dt)

/-- `asdict(ComponentProgress)` under `default=str`. -/
def progressJson (p : ComponentProgress) : Jval :=
  Jval.obj [("component_type", Jval.str p.component_type),
            ("component_name", Jval.str p.component_name),
            ("status", Jval.str p.status),
            ("details", p.details),
            ("iteration_added", Jval.num (p.iteration_added : ℚ)),
            ("timestamp", dtStr p.timestamp)]

/-- Scene-state entry of `scene_state_history` in `get_full_context`
(explicit `.isoformat()` timestamp). -/
def sceneHistJson (st : SceneState) : Jval :=
  Jval.obj [("objects", Jval.arr st.objects), ("lights", Jval.arr st.lights),
            ("cameras", Jval.arr st.cameras), ("materials", Jval.arr st.materials),
            ("scene_info", st.scene_info), ("timestamp", dtIso st.timestamp)]

/-- `asdict(SceneState)` inside an iteration (`default=str` timestamp). -/
def sceneAsdictJson (st : SceneState) : Jval :=
  Jval.obj [("objects", Jval.arr st.objects), ("lights", Jval.arr st.lights),
            ("cameras", Jval.arr st.cameras), ("materials", Jval.arr st.materials),
            ("scene_info", st.scene_info), ("timestamp", dtStr st.timestamp)]

/-- `asdict(LeadAgentResponse)` under `default=str`. -/
def leadJson (l : LeadAgentResponse) : Jval :=
  Jval.obj [("sub_tasks", Jval.arr l.sub_tasks),
            ("raw_response", Jval.str l.raw_response),
            ("timestamp", dtStr l.timestamp)]

/-- `asdict(CodeGenerationTask)` under `default=str`. -/
def taskJson (t : CodeGenerationTask) : Jval :=
  Jval.obj [("task_name", Jval.str t.task_name),
            ("instruction", Jval.str t.instruction),
            ("generated_code", Jval.str t.generated_code),
            ("raw_response", Jval.str t.raw_response),
            ("timestamp", dtStr t.timestamp)]

/-- `asdict(SceneEvaluation)` under `default=str`. -/
def evalJson (e : SceneEvaluation) : Jval :=
  Jval.obj [("match_score", Jval.num e.match_score),
            ("suggestion", Jval.str e.suggestion),
            ("timestamp", dtStr e.timestamp)]

/-- `asdict(ToolResult)` under `default=str`. -/
def toolJson (t : ToolResult) : Jval :=
  Jval.obj [("tool_name", Jval.str t.tool_name),
            ("result", t.result),
            ("metadata", t.metadata),
            ("timestamp", dtStr t.timestamp)]

/-- One sealed iteration as rendered by `get_full_context`. -/
def iterJson (it : IterationContext) : Jval :=
  Jval.obj [("iteration", Jval.num (it.iteration : ℚ)),
            ("timestamp", dtIso it.timestamp),
            ("lead_agent_response",
              match it.lead_agent_response with
              | some l => leadJson l
              | none => Jval.null),
            ("code_generation_tasks", Jval.arr (it.code_generation_tasks.map taskJson)),
            ("scene_evaluation",
              match it.scene_evaluation with
              | some e => evalJson e
              | none => Jval.null),
            ("tool_results", Jval.arr (it.tool_results.map toolJson)),
            ("scene_state",
              match it.scene_state with
              | some st => sceneAsdictJson st
              | none => Jval.null),
            ("component_progress", Jval.arr (it.component_progress.map progressJson))]

/-- `ContextManager.get_full_context`, composed with the
`json.dump(..., default=str)` value conversion: the structured document
that `save_to_file` writes.  `json.dump` followed by `json.load` is the
identity on this tree, so `load_from_file` below consumes it directly. -/
def ContextManager.get_full_context (cm : ContextManager) : Jval :=
  Jval.obj [("initial_requirement", Jval.str cm.initial_requirement),
            ("scene_state_history", Jval.arr (cm.scene_state_history.map sceneHistJson)),
            ("component_registry",
              Jval.obj (cm.component_registry.map (fun p => (p.1, progressJson p.2)))),
            ("iterations", Jval.arr (cm.iterations.map iterJson)),
            ("final_result", cm.final_result)]

/-! ### `load_from_file` -/

def asStr : Jval → Except PyErr String
  | Jval.str s => Except.ok s
  | _ => Except.error (PyErr.typeError "expected str")

def asNum : Jval → Except PyErr ℚ
  | Jval.num q => Except.ok q
  | _ => Except.error (PyErr.typeError "expected number")

def asInt (v : Jval) : Except PyErr ℤ := do
  let q ← asNum v
  if q.den = 1 then return q.num else Except.error (PyErr.typeError "expected int")

def asArr : Jval → Except PyErr (List Jval)
  | Jval.arr xs => Except.ok xs
  | _ => Except.error (PyErr.typeError "expected list")

def asObj : Jval → Except PyErr (List (String × Jval))
  | Jval.obj kvs => Except.ok kvs
  | _ => Except.error (PyErr.typeError "expected dict")

/-- Python `d[k]` (KeyError on a missing key). -/
def jIndex (v : Jval) (k : String) : Except PyErr Jval := do
  let kvs ← asObj v
  match kvs.lookup k with
  | some x => Except.ok x
  | none => Except.error (PyErr.valueError "KeyError")

/-- Python `d.get(k, default)`. -/
def jGetD (v : Jval) (k : String) (d : Jval) : Jval :=
  match v with
  | Jval.obj kvs => (kvs.lookup k).getD d
  | _ => d

/-- `datetime.fromisoformat(...)` on a loaded value. -/
def parseDT (v : Jval) : Except PyErr DateTime := do
  let s ← asStr v
  match fromisoformat s with
  | some dt => Except.ok dt
  | none => Except.error (PyErr.valueError "Invalid isoformat string")

def loadSceneState (v : Jval) : Except PyErr SceneState := do
  let objects ← asArr (← jIndex v "objects")
  let lights ← asArr (← jIndex v "lights")
  let cameras ← asArr (← jIndex v "cameras")
  let materials ← asArr (← jIndex v "materials")
  let scene_info ← jIndex v "scene_info"
  let ts ← parseDT (← jIndex v "timestamp")
  return { objects := objects, lights := lights, cameras := cameras,
           materials := materials, scene_info := scene_info, timestamp := ts }

def loadProgress (v : Jval) : Except PyErr ComponentProgress := do
  let component_type ← asStr (← jIndex v "component_type")
  let component_name ← asStr (← jIndex v "component_name")
  let status ← asStr (← jIndex v "status")
  let details ← jIndex v "details"
  let iteration_added ← asInt (← jIndex v "iteration_added")
  let ts ← parseDT (← jIndex v "timestamp")
  return { component_type := component_type, component_name := component_name,
           status := status, details := details,
           iteration_added := iteration_added, timestamp := ts }

def loadLead (v : Jval) : Except PyErr LeadAgentResponse := do
  let sub_tasks ← asArr (← jIndex v "sub_tasks")
  let raw_response ← asStr (← jIndex v "raw_response")
  let ts ← parseDT (← jIndex v "timestamp")
  return { sub_tasks := sub_tasks, raw_response := raw_response, timestamp := ts }

def loadTask (v : Jval) : Except PyErr CodeGenerationTask := do
  let task_name ← asStr (← jIndex v "task_name")
  let instruction ← asStr (← jIndex v "instruction")
  let generated_code ← asStr (← jIndex v "generated_code")
  let raw_response ← asStr (← jIndex v "raw_response")
  let ts ← parseDT (← jIndex v "timestamp")
  return { task_name := task_name, instruction := instruction,
           generated_code := generated_code, raw_response := raw_response,
           timestamp := ts }

def loadEval (v : Jval) : Except PyErr SceneEvaluation := do
  let match_score ← asNum (← jIndex v "match_score")
  let suggestion ← asStr (← jIndex v "suggestion")
  let ts ← parseDT (← jIndex v "timestamp")
  return { match_score := match_score, suggestion := suggestion, timestamp := ts }

def loadTool (v : Jval) : Except PyErr ToolResult := do
  let tool_name ← asStr (← jIndex v "tool_name")
  let result ← jIndex v "result"
  let metadata ← jIndex v "metadata"
  let ts ← parseDT (← jIndex v "timestamp")
  return { tool_name := tool_name, result := result, metadata := metadata,
           timestamp := ts }

/-- Python's `if iter_data.get(key):` truthiness guard around an
optional sub-record: JSON null (Python `None`) means absent, anything
else is reconstructed. -/
def loadOpt {β : Type} (f : Jval → Except PyErr β) (v : Jval) :
    Except PyErr (Option β) :=
  match v with
  | Jval.null => Except.ok none
  | w => do return some (← f w)

/-- `v` is the JSON null value. -/
def Jval.isNull : Jval → Bool
  | Jval.null => true
  | _ => false

theorem loadOpt_eq_some {β : Type} (f : Jval → Except PyErr β) (v : Jval) (b : β)
    (hnn : Jval.isNull v = false) (hf : f v = Except.ok b) :
    loadOpt f v = Except.ok (some b) := by
  cases v <;> simp_all [loadOpt, Jval.isNull, Bind.bind, Except.bind, Pure.pure, Except.pure]

def loadIteration (v : Jval) : Except PyErr IterationContext := do
  let iteration ← asInt (← jIndex v "iteration")
  let ts ← parseDT (← jIndex v "timestamp")
  let lead ← loadOpt loadLead (jGetD v "lead_agent_response" Jval.null)
  let tasks ← (← asArr (jGetD v "code_generation_tasks" (Jval.arr []))).mapM loadTask
  let ev ← loadOpt loadEval (jGetD v "scene_evaluation" Jval.null)
  let scene ← loadOpt loadSceneState (jGetD v "scene_state" Jval.null)
  let comps ← (← asArr (jGetD v "component_progress" (Jval.arr []))).mapM loadProgress
  let tools ← (← asArr (jGetD v "tool_results" (Jval.arr []))).mapM loadTool
  return { iteration := iteration, lead_agent_response := lead,
           code_generation_tasks := tasks, scene_evaluation := ev,
           tool_results := tools, scene_state := scene,
           component_progress := comps, timestamp := ts }

/-- `ContextManager.load_from_file` applied to a fresh ledger, on the
loaded document tree: reconstructs everything except
`current_iteration`, which stays `None`. -/
def load_from_file (data : Jval) : Except PyErr ContextManager := do
  let initial_requirement ← asStr (jGetD data "initial_requirement" (Jval.str ""))
  let final_result := jGetD data "final_result" Jval.null
  let history ← (← asArr (jGetD data "scene_state_history" (Jval.arr []))).mapM loadSceneState
  let registry ← (← asObj (jGetD data "component_registry" (Jval.obj []))).mapM
    (fun p => do return (p.1, ← loadProgress p.2))
  let iterations ← (← asArr (jGetD data "iterations" (Jval.arr []))).mapM loadIteration
  return { initial_requirement := initial_requirement, iterations := iterations,
           current_iteration := none, final_result := final_result,
           scene_state_history := history, component_registry := registry }


/-! ### Round-trip lemmas -/

theorem mapM_map_ok {α β γ : Type} (g : α → γ) (f : γ → Except PyErr β)
    (r : α → β) : ∀ (l : List α), (∀ a ∈ l, f (g a) = Except.ok (r a)) →
    (l.map g).mapM f = Except.ok (l.map r) := by
  intro l
  induction l with
  | nil => intro _; rfl
  | cons x xs ih =>
    intro h
    simp only [List.map_cons, List.mapM_cons, h x (by simp),
      ih (fun a ha => h a (by simp [ha]))]
    rfl

theorem stringmk_toList (l : List Char) : (String.mk l).toList = l := rfl

theorem loadSceneState_hist_roundtrip (st : SceneState) (h : st.timestamp.wfB = true) :
    loadSceneState (sceneHistJson st) = Except.ok st := by
  have hfi : fromisoList (st.timestamp.isoCore 'T') = some st.timestamp :=
    fromisoList_isoCore _ _ h
  simp +decide [loadSceneState, sceneHistJson, jIndex, asObj, asArr, parseDT, asStr,
    dtIso, DateTime.isoformat, fromisoformat, stringmk_toList, hfi, List.lookup,
    Bind.bind, Except.bind, Pure.pure, Except.pure]

theorem loadSceneState_asdict_roundtrip (st : SceneState) (h : st.timestamp.wfB = true) :
    loadSceneState (sceneAsdictJson st) = Except.ok st := by
  have hfi : fromisoList (st.timestamp.isoCore ' ') = some st.timestamp :=
    fromisoList_isoCore _ _ h
  simp +decide [loadSceneState, sceneAsdictJson, jIndex, asObj, asArr, parseDT, asStr,
    dtStr, pyStrDateTime, fromisoformat, stringmk_toList, hfi, List.lookup,
    Bind.bind, Except.bind, Pure.pure, Except.pure]

theorem loadProgress_roundtrip (p : ComponentProgress) (h : p.timestamp.wfB = true) :
    loadProgress (progressJson p) = Except.ok p := by
  have hfi : fromisoList (p.timestamp.isoCore ' ') = some p.timestamp :=
    fromisoList_isoCore _ _ h
  simp +decide [loadProgress, progressJson, jIndex, asObj, asArr, parseDT, asStr,
    asInt, asNum, dtStr, pyStrDateTime, fromisoformat, stringmk_toList, hfi,
    List.lookup, Rat.den_intCast, Rat.num_intCast,
    Bind.bind, Except.bind, Pure.pure, Except.pure]

theorem loadLead_roundtrip (l : LeadAgentResponse) (h : l.timestamp.wfB = true) :
    loadLead (leadJson l) = Except.ok l := by
  have hfi : fromisoList (l.timestamp.isoCore ' ') = some l.timestamp :=
    fromisoList_isoCore _ _ h
  simp +decide [loadLead, leadJson, jIndex, asObj, asArr, parseDT, asStr,
    dtStr, pyStrDateTime, fromisoformat, stringmk_toList, hfi, List.lookup,
    Bind.bind, Except.bind, Pure.pure, Except.pure]

theorem loadTask_roundtrip (t : CodeGenerationTask) (h : t.timestamp.wfB = true) :
    loadTask (taskJson t) = Except.ok t := by
  have hfi : fromisoList (t.timestamp.isoCore ' ') = some t.timestamp :=
    fromisoList_isoCore _ _ h
  simp +decide [loadTask, taskJson, jIndex, asObj, parseDT, asStr,
    dtStr, pyStrDateTime, fromisoformat, stringmk_toList, hfi, List.lookup,
    Bind.bind, Except.bind, Pure.pure, Except.pure]

theorem loadEval_roundtrip (e : SceneEvaluation) (h : e.timestamp.wfB = true) :
    loadEval (evalJson e) = Except.ok e := by
  have hfi : fromisoList (e.timestamp.isoCore ' ') = some e.timestamp :=
    fromisoList_isoCore _ _ h
  simp +decide [loadEval, evalJson, jIndex, asObj, parseDT, asStr, asNum,
    dtStr, pyStrDateTime, fromisoformat, stringmk_toList, hfi, List.lookup,
    Bind.bind, Except.bind, Pure.pure, Except.pure]

theorem loadTool_roundtrip (t : ToolResult) (h : t.timestamp.wfB = true) :
    loadTool (toolJson t) = Except.ok t := by
  have hfi : fromisoList (t.timestamp.isoCore ' ') = some t.timestamp :=
    fromisoList_isoCore _ _ h
  simp +decide [loadTool, toolJson, jIndex, asObj, parseDT, asStr,
    dtStr, pyStrDateTime, fromisoformat, stringmk_toList, hfi, List.lookup,
    Bind.bind, Except.bind, Pure.pure, Except.pure]

/-- Well-formedness of one iteration's timestamps. -/
def IterationContext.wfB (it : IterationContext) : Bool :=
  it.timestamp.wfB &&
  (match it.lead_agent_response with
   | some l => l.timestamp.wfB
   | none => true) &&
  it.code_generation_tasks.all (fun t => t.timestamp.wfB) &&
  (match it.scene_evaluation with
   | some e => e.timestamp.wfB
   | none => true) &&
  it.tool_results.all (fun t => t.timestamp.wfB) &&
  (match it.scene_state with
   | some s => s.timestamp.wfB
   | none => true) &&
  it.component_progress.all (fun p => p.timestamp.wfB)

theorem loadIteration_roundtrip (it : IterationContext) (h : it.wfB = true) :
    loadIteration (iterJson it) = Except.ok it := by
  unfold IterationContext.wfB at h
  simp only [Bool.and_eq_true] at h
  obtain ⟨⟨⟨⟨⟨⟨hts, hlead⟩, htasks⟩, hev⟩, htools⟩, hscene⟩, hcomps⟩ := h
  have hfi : fromisoList (it.timestamp.isoCore 'T') = some it.timestamp :=
    fromisoList_isoCore _ _ hts
  have htasks' : (it.code_generation_tasks.map taskJson).mapM loadTask =
      Except.ok (it.code_generation_tasks.map id) := by
    refine mapM_map_ok _ _ _ _ (fun a ha => loadTask_roundtrip a ?_)
    exact (List.all_eq_true.mp htasks) a ha
  have htools' : (it.tool_results.map toolJson).mapM loadTool =
      Except.ok (it.tool_results.map id) := by
    refine mapM_map_ok _ _ _ _ (fun a ha => loadTool_roundtrip a ?_)
    exact (List.all_eq_true.mp htools) a ha
  have hcomps' : (it.component_progress.map progressJson).mapM loadProgress =
      Except.ok (it.component_progress.map id) := by
    refine mapM_map_ok _ _ _ _ (fun a ha => loadProgress_roundtrip a ?_)
    exact (List.all_eq_true.mp hcomps) a ha
  simp only [List.mapM, List.map_id] at htasks' htools' hcomps'
  cases hl : it.lead_agent_response with
  | none =>
    cases he : it.scene_evaluation with
    | none =>
      cases hsc : it.scene_state with
      | none =>
        have hleadq : loadOpt loadLead Jval.null = Except.ok (none : Option LeadAgentResponse) := rfl
        have hevq : loadOpt loadEval Jval.null = Except.ok (none : Option SceneEvaluation) := rfl
        have hsceneq : loadOpt loadSceneState Jval.null = Except.ok (none : Option SceneState) := rfl
        simp +decide [loadIteration, iterJson, jIndex, jGetD, asObj, asArr,
          parseDT, asStr, asInt, asNum, dtIso, DateTime.isoformat, fromisoformat,
          stringmk_toList, hfi, hl, he, hsc, htasks', htools', hcomps',
          hleadq, hevq, hsceneq,
          List.lookup, Rat.den_intCast, Rat.num_intCast, List.mapM,
          Bind.bind, Except.bind, Pure.pure, Except.pure]
        conv_rhs => rw [show it = ⟨it.iteration, it.lead_agent_response,
          it.code_generation_tasks, it.scene_evaluation, it.tool_results,
          it.scene_state, it.component_progress, it.timestamp⟩ from rfl]
        rw [hl, he, hsc]
      | some sv =>
        have hleadq : loadOpt loadLead Jval.null = Except.ok (none : Option LeadAgentResponse) := rfl
        have hevq : loadOpt loadEval Jval.null = Except.ok (none : Option SceneEvaluation) := rfl
        rw [hsc] at hscene
        simp only [] at hscene
        have hsceneq : loadOpt loadSceneState (sceneAsdictJson sv) = Except.ok (some sv) :=
          loadOpt_eq_some _ _ _ rfl (loadSceneState_asdict_roundtrip sv hscene)
        simp +decide [loadIteration, iterJson, jIndex, jGetD, asObj, asArr,
          parseDT, asStr, asInt, asNum, dtIso, DateTime.isoformat, fromisoformat,
          stringmk_toList, hfi, hl, he, hsc, htasks', htools', hcomps',
          hleadq, hevq, hsceneq,
          List.lookup, Rat.den_intCast, Rat.num_intCast, List.mapM,
          Bind.bind, Except.bind, Pure.pure, Except.pure]
        conv_rhs => rw [show it = ⟨it.iteration, it.lead_agent_response,
          it.code_generation_tasks, it.scene_evaluation, it.tool_results,
          it.scene_state, it.component_progress, it.timestamp⟩ from rfl]
        rw [hl, he, hsc]
    | some ev =>
      cases hsc : it.scene_state with
      | none =>
        have hleadq : loadOpt loadLead Jval.null = Except.ok (none : Option LeadAgentResponse) := rfl
        rw [he] at hev
        simp only [] at hev
        have hevq : loadOpt loadEval (evalJson ev) = Except.ok (some ev) :=
          loadOpt_eq_some _ _ _ rfl (loadEval_roundtrip ev hev)
        have hsceneq : loadOpt loadSceneState Jval.null = Except.ok (none : Option SceneState) := rfl
        simp +decide [loadIteration, iterJson, jIndex, jGetD, asObj, asArr,
          parseDT, asStr, asInt, asNum, dtIso, DateTime.isoformat, fromisoformat,
          stringmk_toList, hfi, hl, he, hsc, htasks', htools', hcomps',
          hleadq, hevq, hsceneq,
          List.lookup, Rat.den_intCast, Rat.num_intCast, List.mapM,
          Bind.bind, Except.bind, Pure.pure, Except.pure]
        conv_rhs => rw [show it = ⟨it.iteration, it.lead_agent_response,
          it.code_generation_tasks, it.scene_evaluation, it.tool_results,
          it.scene_state, it.component_progress, it.timestamp⟩ from rfl]
        rw [hl, he, hsc]
      | some sv =>
        have hleadq : loadOpt loadLead Jval.null = Except.ok (none : Option LeadAgentResponse) := rfl
        rw [he] at hev
        simp only [] at hev
        have hevq : loadOpt loadEval (evalJson ev) = Except.ok (some ev) :=
          loadOpt_eq_some _ _ _ rfl (loadEval_roundtrip ev hev)
        rw [hsc] at hscene
        simp only [] at hscene
        have hsceneq : loadOpt loadSceneState (sceneAsdictJson sv) = Except.ok (some sv) :=
          loadOpt_eq_some _ _ _ rfl (loadSceneState_asdict_roundtrip sv hscene)
        simp +decide [loadIteration, iterJson, jIndex, jGetD, asObj, asArr,
          parseDT, asStr, asInt, asNum, dtIso, DateTime.isoformat, fromisoformat,
          stringmk_toList, hfi, hl, he, hsc, htasks', htools', hcomps',
          hleadq, hevq, hsceneq,
          List.lookup, Rat.den_intCast, Rat.num_intCast, List.mapM,
          Bind.bind, Except.bind, Pure.pure, Except.pure]
        conv_rhs => rw [show it = ⟨it.iteration, it.lead_agent_response,
          it.code_generation_tasks, it.scene_evaluation, it.tool_results,
          it.scene_state, it.component_progress, it.timestamp⟩ from rfl]
        rw [hl, he, hsc]
  | some lv =>
    cases he : it.scene_evaluation with
    | none =>
      cases hsc : it.scene_state with
      | none =>
        rw [hl] at hlead
        simp only [] at hlead
        have hleadq : loadOpt loadLead (leadJson lv) = Except.ok (some lv) :=
          loadOpt_eq_some _ _ _ rfl (loadLead_roundtrip lv hlead)
        have hevq : loadOpt loadEval Jval.null = Except.ok (none : Option SceneEvaluation) := rfl
        have hsceneq : loadOpt loadSceneState Jval.null = Except.ok (none : Option SceneState) := rfl
        simp +decide [loadIteration, iterJson, jIndex, jGetD, asObj, asArr,
          parseDT, asStr, asInt, asNum, dtIso, DateTime.isoformat, fromisoformat,
          stringmk_toList, hfi, hl, he, hsc, htasks', htools', hcomps',
          hleadq, hevq, hsceneq,
          List.lookup, Rat.den_intCast, Rat.num_intCast, List.mapM,
          Bind.bind, Except.bind, Pure.pure, Except.pure]
        conv_rhs => rw [show it = ⟨it.iteration, it.lead_agent_response,
          it.code_generation_tasks, it.scene_evaluation, it.tool_results,
          it.scene_state, it.component_progress, it.timestamp⟩ from rfl]
        rw [hl, he, hsc]
      | some sv =>
        rw [hl] at hlead
        simp only [] at hlead
        have hleadq : loadOpt loadLead (leadJson lv) = Except.ok (some lv) :=
          loadOpt_eq_some _ _ _ rfl (loadLead_roundtrip lv hlead)
        have hevq : loadOpt loadEval Jval.null = Except.ok (none : Option SceneEvaluation) := rfl
        rw [hsc] at hscene
        simp only [] at hscene
        have hsceneq : loadOpt loadSceneState (sceneAsdictJson sv) = Except.ok (some sv) :=
          loadOpt_eq_some _ _ _ rfl (loadSceneState_asdict_roundtrip sv hscene)
        simp +decide [loadIteration, iterJson, jIndex, jGetD, asObj, asArr,
          parseDT, asStr, asInt, asNum, dtIso, DateTime.isoformat, fromisoformat,
          stringmk_toList, hfi, hl, he, hsc, htasks', htools', hcomps',
          hleadq, hevq, hsceneq,
          List.lookup, Rat.den_intCast, Rat.num_intCast, List.mapM,
          Bind.bind, Except.bind, Pure.pure, Except.pure]
        conv_rhs => rw [show it = ⟨it.iteration, it.lead_agent_response,
          it.code_generation_tasks, it.scene_evaluation, it.tool_results,
          it.scene_state, it.component_progress, it.timestamp⟩ from rfl]
        rw [hl, he, hsc]
    | some ev =>
      cases hsc : it.scene_state with
      | none =>
        rw [hl] at hlead
        simp only [] at hlead
        have hleadq : loadOpt loadLead (leadJson lv) = Except.ok (some lv) :=
          loadOpt_eq_some _ _ _ rfl (loadLead_roundtrip lv hlead)
        rw [he] at hev
        simp only [] at hev
        have hevq : loadOpt loadEval (evalJson ev) = Except.ok (some ev) :=
          loadOpt_eq_some _ _ _ rfl (loadEval_roundtrip ev hev)
        have hsceneq : loadOpt loadSceneState Jval.null = Except.ok (none : Option SceneState) := rfl
        simp +decide [loadIteration, iterJson, jIndex, jGetD, asObj, asArr,
          parseDT, asStr, asInt, asNum, dtIso, DateTime.isoformat, fromisoformat,
          stringmk_toList, hfi, hl, he, hsc, htasks', htools', hcomps',
          hleadq, hevq, hsceneq,
          List.lookup, Rat.den_intCast, Rat.num_intCast, List.mapM,
          Bind.bind, Except.bind, Pure.pure, Except.pure]
        conv_rhs => rw [show it = ⟨it.iteration, it.lead_agent_response,
          it.code_generation_tasks, it.scene_evaluation, it.tool_results,
          it.scene_state, it.component_progress, it.timestamp⟩ from rfl]
        rw [hl, he, hsc]
      | some sv =>
        rw [hl] at hlead
        simp only [] at hlead
        have hleadq : loadOpt loadLead (leadJson lv) = Except.ok (some lv) :=
          loadOpt_eq_some _ _ _ rfl (loadLead_roundtrip lv hlead)
        rw [he] at hev
        simp only [] at hev
        have hevq : loadOpt loadEval (evalJson ev) = Except.ok (some ev) :=
          loadOpt_eq_some _ _ _ rfl (loadEval_roundtrip ev hev)
        rw [hsc] at hscene
        simp only [] at hscene
        have hsceneq : loadOpt loadSceneState (sceneAsdictJson sv) = Except.ok (some sv) :=
          loadOpt_eq_some _ _ _ rfl (loadSceneState_asdict_roundtrip sv hscene)
        simp +decide [loadIteration, iterJson, jIndex, jGetD, asObj, asArr,
          parseDT, asStr, asInt, asNum, dtIso, DateTime.isoformat, fromisoformat,
          stringmk_toList, hfi, hl, he, hsc, htasks', htools', hcomps',
          hleadq, hevq, hsceneq,
          List.lookup, Rat.den_intCast, Rat.num_intCast, List.mapM,
          Bind.bind, Except.bind, Pure.pure, Except.pure]
        conv_rhs => rw [show it = ⟨it.iteration, it.lead_agent_response,
          it.code_generation_tasks, it.scene_evaluation, it.tool_results,
          it.scene_state, it.component_progress, it.timestamp⟩ from rfl]
        rw [hl, he, hsc]

/-- Timestamps throughout the session are well formed (bounded so the
fixed-width serialization is faithful). -/
def ContextManager.wfB (cm : ContextManager) : Bool :=
  cm.scene_state_history.all (fun s => s.timestamp.wfB) &&
  cm.component_registry.all (fun p => p.2.timestamp.wfB) &&
  cm.iterations.all IterationContext.wfB

theorem load_save_roundtrip (cm : ContextManager) (h : cm.wfB = true) :
    load_from_file cm.get_full_context =
      Except.ok { cm with current_iteration := none } := by
  unfold ContextManager.wfB at h
  simp only [Bool.and_eq_true] at h
  obtain ⟨⟨hhist, hreg⟩, hiters⟩ := h
  have hh : (cm.scene_state_history.map sceneHistJson).mapM loadSceneState =
      Except.ok cm.scene_state_history := by
    have := mapM_map_ok sceneHistJson loadSceneState id cm.scene_state_history
      (fun a ha => loadSceneState_hist_roundtrip a ((List.all_eq_true.mp hhist) a ha))
    simpa using this
  have hr : ((cm.component_registry.map (fun p => (p.1, progressJson p.2))).mapM
      (fun p => do return (p.1, ← loadProgress p.2))) =
      Except.ok cm.component_registry := by
    have := mapM_map_ok (fun p : String × ComponentProgress => (p.1, progressJson p.2))
      (fun p : String × Jval => do return (p.1, ← loadProgress p.2))
      id cm.component_registry
      (fun a ha => by
        simp [loadProgress_roundtrip a.2 ((List.all_eq_true.mp hreg) a ha),
          Bind.bind, Except.bind, Pure.pure, Except.pure])
    simpa using this
  have hi : (cm.iterations.map iterJson).mapM loadIteration =
      Except.ok cm.iterations := by
    have := mapM_map_ok iterJson loadIteration id cm.iterations
      (fun a ha => loadIteration_roundtrip a ((List.all_eq_true.mp hiters) a ha))
    simpa using this
  simp only [List.mapM] at hh hr hi
  simp only [Bind.bind, Except.bind, Pure.pure, Except.pure] at hr
  simp +decide [load_from_file, ContextManager.get_full_context, jGetD, asStr,
    asArr, asObj, List.lookup, List.mapM, hh, hr, hi,
    Bind.bind, Except.bind, Pure.pure, Except.pure]

end Ctx

/-! ## Claims C8 and C9 -/

/-- C8: with no iteration open (`current_iteration = None`), every
`store_*` operation and `update_component_progress` is a silent no-op:
it cannot raise (it is a guarded field update) and returns the ledger
completely unchanged — sealed iterations, scene-state history,
component registry and final result included. -/
theorem C8_store_noop_without_iteration (cm : Ctx.ContextManager)
    (h : cm.current_iteration = none)
    (sub_tasks : List Jval) (raw tn instr code rawr : String)
    (ms : ℚ) (sug tool : String) (result : Jval) (meta : Option Jval)
    (sd : Ctx.SceneDict) (ct cn status : String) (details : Option Jval)
    (now : DateTime) :
    cm.store_lead_response sub_tasks raw now = cm ∧
    cm.store_code_generation tn instr code rawr now = cm ∧
    cm.store_evaluation ms sug now = cm ∧
    cm.store_tool_result tool result meta now = cm ∧
    cm.store_scene_state sd now = cm ∧
    cm.update_component_progress ct cn status details now = cm := by
  refine ⟨?_, ?_, ?_, ?_, ?_, ?_⟩ <;>
    simp [Ctx.ContextManager.store_lead_response,
      Ctx.ContextManager.store_code_generation,
      Ctx.ContextManager.store_evaluation,
      Ctx.ContextManager.store_tool_result,
      Ctx.ContextManager.store_scene_state,
      Ctx.ContextManager.update_component_progress, h]

/-- A sample timestamp with all components nonzero. -/
def dtW : DateTime :=
  { year := 2024, month := 5, day := 17, hour := 12, minute := 30,
    second := 45, microsecond := 123456 }

/-- C8 (witness): every store operation applied to the fresh ledger
(current iteration `None`) leaves it untouched. -/
theorem C8_store_noop_without_iteration_witness :
    (Ctx.ContextManager.new).store_lead_response [Jval.str "t"] "raw" dtW =
      Ctx.ContextManager.new ∧
    (Ctx.ContextManager.new).store_code_generation "t" "i" "c" "r" dtW =
      Ctx.ContextManager.new ∧
    (Ctx.ContextManager.new).store_evaluation 1 "s" dtW = Ctx.ContextManager.new ∧
    (Ctx.ContextManager.new).store_tool_result "tool" (Jval.str "res") none dtW =
      Ctx.ContextManager.new ∧
    (Ctx.ContextManager.new).store_scene_state
      { objects := [], lights := [], cameras := [], materials := [],
        scene_info := Jval.obj [] } dtW = Ctx.ContextManager.new ∧
    (Ctx.ContextManager.new).update_component_progress "object" "chair" "missing"
      none dtW = Ctx.ContextManager.new :=
  C8_store_noop_without_iteration Ctx.ContextManager.new rfl
    [Jval.str "t"] "raw" "t" "i" "c" "r" 1 "s" "tool" (Jval.str "res") none
    { objects := [], lights := [], cameras := [], materials := [],
      scene_info := Jval.obj [] } "object" "chair" "missing" none dtW

/-- C9: for every session whose timestamps are representable in the
serialization's fixed-width fields, `save_to_file` followed by
`load_from_file` into a fresh ledger succeeds and reproduces the full
session — every nested record, timestamps included — except the
transient open-iteration slot, which a fresh ledger holds as `None`;
in particular the reloaded ledger has an equal `initial_requirement`,
an equal number of sealed iterations, and an equal `final_result`. -/
theorem C9_save_load_roundtrip (cm : Ctx.ContextManager)
    (h : cm.wfB = true) :
    ∃ cm', Ctx.load_from_file cm.get_full_context = Except.ok cm' ∧
      cm'.initial_requirement = cm.initial_requirement ∧
      cm'.iterations.length = cm.iterations.length ∧
      cm'.final_result = cm.final_result ∧
      cm' = { cm with current_iteration := none } :=
  ⟨{ cm with current_iteration := none },
   Ctx.load_save_roundtrip cm h, rfl, rfl, rfl, rfl⟩

/-- A concrete session exercising every kind of nested record. -/
def sessionW : Ctx.ContextManager :=
  { initial_requirement := "a cozy room",
    iterations :=
      [{ iteration := 1,
         lead_agent_response := some
           { sub_tasks := [Jval.str "t1"], raw_response := "raw", timestamp := dtW },
         code_generation_tasks :=
           [{ task_name := "t1", instruction := "add a chair",
              generated_code := "code", raw_response := "raw", timestamp := dtW }],
         scene_evaluation := some
           { match_score := 1, suggestion := "more", timestamp := dtW },
         tool_results :=
           [{ tool_name := "get_scene_info", result := Jval.str "info",
              metadata := Jval.obj [("iteration", Jval.num 0)], timestamp := dtW }],
         scene_state := some
           { objects := [Jval.str "o"], lights := [], cameras := [],
             materials := [], scene_info := Jval.obj [], timestamp := dtW },
         component_progress :=
           [{ component_type := "object", component_name := "chair",
              status := "complete", details := Jval.obj [],
              iteration_added := 1, timestamp := dtW }],
         timestamp := dtW }],
    current_iteration := none,
    final_result := Jval.obj [("success", Jval.bool true)],
    scene_state_history :=
      [{ objects := [], lights := [], cameras := [], materials := [],
         scene_info := Jval.obj [], timestamp := dtW }],
    component_registry :=
      [("object:chair",
        { component_type := "object", component_name := "chair",
          status := "complete", details := Jval.obj [],
          iteration_added := 1, timestamp := dtW })] }

/-- C9 (witness): the round trip applied to the concrete session. -/
theorem C9_save_load_roundtrip_witness :
    ∃ cm', Ctx.load_from_file sessionW.get_full_context = Except.ok cm' ∧
      cm'.initial_requirement = sessionW.initial_requirement ∧
      cm'.iterations.length = sessionW.iterations.length ∧
      cm'.final_result = sessionW.final_result ∧
      cm' = { sessionW with current_iteration := none } :=
  C9_save_load_roundtrip sessionW (by decide)

/-! ## Orchestrator (`services/executor.py`) -/

/-- A 3-vector rendered for JSON storage. -/
def vecJson (v : ℚ × ℚ × ℚ) : Jval :=
  Jval.arr [Jval.num v.1, Jval.num v.2.1, Jval.num v.2.2]

/-- A 4-component color rendered for JSON storage. -/
def colorJson (v : ℚ × ℚ × ℚ × ℚ) : Jval :=
  Jval.arr [Jval.num v.1, Jval.num v.2.1, Jval.num v.2.2.1, Jval.num v.2.2.2]

/-- An optional value rendered for JSON storage (`None` ↦ null). -/
def optJson (f : α → Jval) : Option α → Jval
  | some a => f a
  | none => Jval.null

/-- `asdict(SceneObject)` (scene_parser dataclass). -/
def sceneObjectAsdict (o : SceneObject) : Jval :=
  Jval.obj [("name", Jval.str o.name), ("object_type", Jval.str o.object_type),
    ("location", vecJson o.location), ("rotation", vecJson o.rotation),
    ("scale", vecJson o.scale), ("dimensions", vecJson o.dimensions),
    ("bounding_box", Jval.arr [vecJson o.bounding_box.1, vecJson o.bounding_box.2]),
    ("vertex_count", Jval.num (o.vertex_count : ℚ)),
    ("face_count", Jval.num (o.face_count : ℚ)),
    ("edge_count", Jval.num (o.edge_count : ℚ)),
    ("materials", Jval.arr (o.materials.map Jval.str)),
    ("parent", optJson Jval.str o.parent),
    ("children", Jval.arr (o.children.map Jval.str)),
    ("visibility", Jval.bool o.visibility),
    ("selectability", Jval.bool o.selectability),
    ("renderability", Jval.bool o.renderability),
    ("custom_properties", Jval.obj o.custom_properties)]

/-- `asdict(SceneLight)`. -/
def sceneLightAsdict (l : SceneLight) : Jval :=
  Jval.obj [("name", Jval.str l.name), ("light_type", Jval.str l.light_type),
    ("location", vecJson l.location), ("rotation", vecJson l.rotation),
    ("energy", Jval.num l.energy), ("color", colorJson l.color),
    ("temperature", Jval.num l.temperature), ("size", Jval.num l.size),
    ("spot_size", optJson Jval.num l.spot_size),
    ("spot_blend", optJson Jval.num l.spot_blend),
    ("shadows", Jval.bool l.shadows),
    ("shadow_cascade", Jval.str l.shadow_cascade),
    ("light_group", optJson Jval.str l.light_group)]

/-- `asdict(SceneCamera)`. -/
def sceneCameraAsdict (c : SceneCamera) : Jval :=
  Jval.obj [("name", Jval.str c.name), ("location", vecJson c.location),
    ("rotation", vecJson c.rotation), ("focal_length", Jval.num c.focal_length),
    ("sensor_width", Jval.num c.sensor_width),
    ("sensor_height", Jval.num c.sensor_height),
    ("clip_start", Jval.num c.clip_start), ("clip_end", Jval.num c.clip_end),
    ("dof_distance", optJson Jval.num c.dof_distance),
    ("dof_fstop", optJson Jval.num c.dof_fstop),
    ("is_active", Jval.bool c.is_active)]

/-- `asdict(SceneMaterial)`. -/
def sceneMaterialAsdict (m : SceneMaterial) : Jval :=
  Jval.obj [("name", Jval.str m.name), ("base_color", colorJson m.base_color),
    ("metallic", Jval.num m.metallic), ("roughness", Jval.num m.roughness),
    ("specular", Jval.num m.specular), ("emission", colorJson m.emission),
    ("alpha", Jval.num m.alpha), ("normal_map", optJson Jval.str m.normal_map),
    ("texture_paths", Jval.arr (m.texture_paths.map Jval.str)),
    ("is_procedural", Jval.bool m.is_procedural),
    ("node_count", Jval.num (m.node_count : ℚ))]

/-- `scene_parser.scene_state_to_dict`, projected to the fields that
its only consumer, `ContextManager.store_scene_state`, reads (the
scene-level keys — world settings, totals, engine, frame range, fps —
are dropped by that consumer's `.get` calls, and the dict has no
`scene_info` key, so the consumer's default `{}` applies). -/
def sceneStateToDict (st : SceneState) : Ctx.SceneDict :=
  { objects := st.objects.map sceneObjectAsdict,
    lights := st.lights.map sceneLightAsdict,
    cameras := st.cameras.map sceneCameraAsdict,
    materials := st.materials.map sceneMaterialAsdict,
    scene_info := Jval.obj [] }

/-- The value of a `parse_scene_info` call (the call always returns;
the error branch of the `Except` wrapper is impossible, and falls back
to `_fallback_parsing` like the source's `except` does). -/
def parseSceneInfoTotal (jsonLoads : String → Option Jval)
    (parseJsonScene : Jval → Except PyErr SceneState) (s : String) : SceneState :=
  match parseSceneInfo jsonLoads parseJsonScene s with
  | Except.ok st => st
  | Except.error _ => fallbackParsing s

/-- `MAX_ITERS` (executor.py line 14). -/
def MAX_ITERS : ℕ := 5

/-- The methods the `ContextManager` class defines
(context_manager.py) — the executor's dispatch targets. -/
def contextManagerMethods : List String :=
  ["set_initial_requirement", "start_iteration", "store_lead_response",
   "store_code_generation", "store_evaluation", "store_tool_result",
   "store_scene_state", "update_component_progress", "complete_iteration",
   "set_final_result", "get_context_for_llm", "get_full_context",
   "save_to_file", "create_checkpoint", "rollback_to_iteration",
   "load_from_file"]

/-- The parameters accepted by `ContextManager.store_evaluation`
(besides `self`). -/
def storeEvaluationParams : List String := ["match_score", "suggestion"]

/-- The keyword arguments the executor passes to
`context.store_evaluation` at lines 209–216. -/
def storeEvaluationCallKwargs : List String :=
  ["match_score", "suggestion", "detailed_analysis", "quality_metrics",
   "issues", "recommendations"]

/-- The names scene_parser.py defines at module level (its imports and
its six classes).  It defines **no** module-level `scene_parser`
instance. -/
def sceneParserModuleNames : List String :=
  ["re", "json", "dataclass", "asdict", "SceneObject", "SceneLight",
   "SceneCamera", "SceneMaterial", "SceneState", "SceneParser"]

/-- The module-level helper `scene_state_to_dict` of executor.py
(lines 258–261): its body begins with the call-time import
`from .scene_parser import scene_parser`, and scene_parser.py defines
no module-level name `scene_parser`, so every call raises
`ImportError` before the conversion (`sceneStateToDict`) can run. -/
def scene_state_to_dictCall (_scene_state : SceneState) :
    Except PyErr Ctx.SceneDict :=
  Except.error (PyErr.importError "scene_parser")

/-- The attribute access `context.store_detailed_analysis` (executor.py
lines 39 and 182): `ContextManager` defines no such method, so Python
would raise `AttributeError` before any argument is consumed — a
latent defect behind the line-34 import error. -/
def callStoreDetailedAnalysis (_cm : Ctx.ContextManager) (_analysis : AnalysisReport) :
    Except PyErr Ctx.ContextManager :=
  Except.error (PyErr.attributeError "store_detailed_analysis")

/-- The evaluator's output dict (scene_evaluator.py `forward`). -/
structure EvalResponse where
  match_score : ℚ
  component_breakdown : Jval
  missing_components : List String
  next_priority : String
  raw_response : String

/-- The orchestrator's external collaborators, as stubs: the MCP tool
responses (indexed by call number), the three agents, and the JSON
decoder used by the scene parser. -/
structure ExtStubs where
  jsonLoads : String → Option Jval
  parseJsonScene : Jval → Except PyErr SceneState
  scene_info : ℕ → String
  screenshot : ℕ → String
  lead : String → String → String → String → List (String × String) × String
  codegen : String → String × String
  execCode : ℕ → Option String
  evalResp : ℕ → EvalResponse

/-- Result of one `execute()` run: the uncaught exception (if any), the
ledger state at exit, and the files persisted. -/
structure ExecResult where
  error : Option PyErr
  cm : Ctx.ContextManager
  saved : List String

/-- `execute()` (executor.py lines 16–255).  INIT opens the session,
sets the requirement, takes and parses the first snapshot (lines
16–33), then calls the module-level `scene_state_to_dict` (line 34),
which deterministically raises `ImportError` — scene_parser.py defines
no module-level `scene_parser` for its call-time import — so
everything from line 35 on is unreachable for every input and every
collaborator behavior: the `store_detailed_analysis` attribute error
(line 39), the convergence loop (lines 51–247), the final checkpoint
and `save_to_file` (lines 249–253).  The unreachable remainder past
line 39 is therefore not modelled beyond these aborts: no run of this
code path ever opens an iteration, seals one, or persists a session. -/
def executeModel (ext : ExtStubs) (requirement : String) (now : DateTime) :
    ExecResult :=
  let cm := Ctx.ContextManager.new
  let cm := cm.set_initial_requirement requirement
  let detailed_scene_state :=
    parseSceneInfoTotal ext.jsonLoads ext.parseJsonScene (ext.scene_info 0)
  match scene_state_to_dictCall detailed_scene_state with
  | Except.error e => { error := some e, cm := cm, saved := [] }
  | Except.ok initial_scene_state =>
    let cm := cm.store_scene_state initial_scene_state now
    let detailed_analysis := analyzeCompleteScene (ext.scene_info 0)
    match callStoreDetailedAnalysis cm detailed_analysis with
    | Except.error e => { error := some e, cm := cm, saved := [] }
    | Except.ok cm2 => { error := none, cm := cm2, saved := [] }

/-- A stub evaluator that always returns match score 0.95 (the C1
failing input), with empty breakdown and no missing components. -/
def evalStub95 : ℕ → EvalResponse := fun _ =>
  { match_score := 95 / 100, component_breakdown := Jval.obj [],
    missing_components := [], next_priority := "done", raw_response := "r" }

/-- The C1 failing input: trivial tool stubs and the constant-0.95
evaluator. -/
def extStub95 : ExtStubs :=
  { jsonLoads := fun _ => none,
    parseJsonScene := fun _ => Except.error (PyErr.typeError "unused"),
    scene_info := fun _ => "Object: Cube",
    screenshot := fun _ => "img",
    lead := fun _ _ _ _ => ([("t1", "add a cube")], "raw"),
    codegen := fun i => ("code for " ++ i, "raw"),
    execCode := fun _ => none,
    evalResp := evalStub95 }

/-! ## Claims C1 and C2 -/

/-- C2 (counterexample): on a concrete run, `execute()`'s error is the
line-34 `ImportError` for the name `scene_parser`, **not** the
`store_detailed_analysis` attribute error the claim asserts — the
program aborts one statement before ever dispatching on
`ContextManager`. -/
theorem C2_attribute_error_counterexample :
    (executeModel extStub95 "a cozy living room" dtW).error =
      some (PyErr.importError "scene_parser") ∧
    ¬ ((executeModel extStub95 "a cozy living room" dtW).error =
      some (PyErr.attributeError "store_detailed_analysis")) := by
  constructor
  · simp [executeModel, scene_state_to_dictCall]
  · simp [executeModel, scene_state_to_dictCall]

/-- C2 (amended): every call to `execute()` still fails during INIT,
before sealing (or even opening) its first iteration — but the failure
is an `ImportError` at the `scene_state_to_dict` call (executor.py
line 34), whose body's call-time `from .scene_parser import
scene_parser` finds no module-level `scene_parser` in scene_parser.py;
consequently no session is ever persisted by this code path.  The
defects originally named by the claim are real but latent behind this
abort: `store_detailed_analysis` (line 39) is absent from
`ContextManager`'s method table, and the `store_evaluation` call site
(lines 209–216) passes the keyword argument `detailed_analysis` (among
others) that `store_evaluation`'s signature (`match_score`,
`suggestion`) does not accept. -/
theorem C2_execute_import_error (ext : ExtStubs) (requirement : String)
    (now : DateTime) :
    (executeModel ext requirement now).error =
      some (PyErr.importError "scene_parser") ∧
    (executeModel ext requirement now).cm.current_iteration = none ∧
    (executeModel ext requirement now).cm.iterations = [] ∧
    (executeModel ext requirement now).saved = [] ∧
    sceneParserModuleNames.contains "scene_parser" = false ∧
    contextManagerMethods.contains "store_detailed_analysis" = false ∧
    storeEvaluationCallKwargs.contains "detailed_analysis" = true ∧
    storeEvaluationParams.contains "detailed_analysis" = false := by
  refine ⟨?_, ?_, ?_, ?_, by decide, by decide, by decide, by decide⟩ <;>
    simp [executeModel, scene_state_to_dictCall,
      Ctx.ContextManager.new, Ctx.ContextManager.set_initial_requirement]

/-- C1: contrary to the claim, no run of the convergence loop ever
completes a cycle — for every collaborator stub (in particular the
constant-0.95 and constant-0.1 evaluators) and every requirement,
`execute()` aborts during INIT with the line-34 `ImportError` on the
name `scene_parser`, sealing zero iterations, never recording a final
result (success or failure), and persisting nothing; the concrete
0.95-stub run is evaluated explicitly. -/
theorem C1_loop_unreachable (ext : ExtStubs) (requirement : String)
    (now : DateTime) :
    (executeModel ext requirement now).error =
      some (PyErr.importError "scene_parser") ∧
    (executeModel ext requirement now).cm.iterations.length = 0 ∧
    (executeModel ext requirement now).cm.final_result = Jval.null ∧
    (executeModel ext requirement now).saved = [] ∧
    (executeModel extStub95 "a cozy living room" dtW).error =
      some (PyErr.importError "scene_parser") ∧
    (executeModel extStub95 "a cozy living room" dtW).cm.final_result = Jval.null := by
  refine ⟨?_, ?_, ?_, ?_, ?_, ?_⟩ <;>
    simp [executeModel, scene_state_to_dictCall,
      Ctx.ContextManager.new, Ctx.ContextManager.set_initial_requirement]
